import Mathlib

/-!
Formal model of the scoring core of the LLM evaluation framework
(`src/evaluators/base_evaluator.py`, `relevance_evaluator.py`,
`accuracy_evaluator.py`, `coherence_evaluator.py`,
`completeness_evaluator.py`, and the aggregation logic of `src/main.py`).

Python strings are modelled as lists of characters (ASCII model of
`str.lower`, `\w`, `\s`); `float` scores are modelled as rationals: every
score combination in the source is plain arithmetic on small decimal
literals.  Regular-expression searches in the source are over fixed
literal alternations and a handful of simple token shapes; they are
modelled by explicit scanners below, each named after the pattern it
implements.
-/

abbrev Text := List Char

def str (s : String) : Text := s.toList

/-- Characters treated as whitespace by Python's `str.split()` and the
regex class `\s` (ASCII model). -/
def isSpaceChar (c : Char) : Bool :=
  c = ' ' || c = '\t' || c = '\n' || c = '\r' || c = Char.ofNat 11 || c = Char.ofNat 12

/-- Characters matched by the regex class `\w` (ASCII model). -/
def isWordChar (c : Char) : Bool := c.isAlphanum || c = '_'

def isDigitChar (c : Char) : Bool := c.isDigit

/-- `str.lower()` (ASCII model). -/
def pyLower (t : Text) : Text := t.map Char.toLower

/-- Split a character list at characters satisfying `sep`; runs of
separators collapse and empty fragments are dropped.  `cur` holds the
current fragment, reversed. -/
def splitChunksAux (sep : Char → Bool) : Text → Text → List Text
  | [], cur => if cur = [] then [] else [cur.reverse]
  | c :: rest, cur =>
    if sep c then
      if cur = [] then splitChunksAux sep rest []
      else cur.reverse :: splitChunksAux sep rest []
    else splitChunksAux sep rest (c :: cur)

def splitChunks (sep : Char → Bool) (t : Text) : List Text := splitChunksAux sep t []

/-- Python `text.split()`: split on whitespace runs, dropping empties. -/
def pySplit (t : Text) : List Text := splitChunks isSpaceChar t

/-- `BaseEvaluator._count_words`: `len(text.split())`. -/
def count_words (t : Text) : Nat := (pySplit t).length

/-- Python `str.strip()` (ASCII whitespace model). -/
def pyStrip (t : Text) : Text :=
  List.reverse (List.dropWhile isSpaceChar (List.reverse (List.dropWhile isSpaceChar t)))

/-- A sentence-separator character, from `re.split(r'[.!?]+', text)`. -/
def isSentSep (c : Char) : Bool := c = '.' || c = '!' || c = '?'

/-- `_split_into_sentences` (textually identical in the accuracy, coherence
and completeness evaluators): split on runs of `.!?`, strip each fragment,
drop empty ones. -/
def split_into_sentences (t : Text) : List Text :=
  ((splitChunks isSentSep t).map pyStrip).filter (fun s => s ≠ [])

/-- `BaseEvaluator._count_sentences`: split `text.strip()` on `[.!?]+` and
count the fragments that are not whitespace-only. -/
def count_sentences (t : Text) : Nat :=
  ((splitChunks isSentSep (pyStrip t)).filter (fun s => pyStrip s ≠ [])).length

/-- `BaseEvaluator._calculate_text_similarity`: case-insensitive word-set
Jaccard index.  (The source's final `if union else 0.0` guard is dead: the
union is non-empty in the branch that reaches it.) -/
def calculate_text_similarity (t1 t2 : Text) : ℚ :=
  let words1 := (pySplit (pyLower t1)).toFinset
  let words2 := (pySplit (pyLower t2)).toFinset
  if words1 = ∅ ∧ words2 = ∅ then 1
  else if words1 = ∅ ∨ words2 = ∅ then 0
  else ((words1 ∩ words2).card : ℚ) / ((words1 ∪ words2).card : ℚ)

/-- Clamping `max(0.0, min(1.0, x))`, used at the end of most sub-scores. -/
def clamp01 (x : ℚ) : ℚ := max 0 (min 1 x)

/-- Python `round(x, 3)` (round half to even), modelled exactly on
rationals. -/
def pyRound3 (x : ℚ) : ℚ :=
  let y := x * 1000
  let f : ℤ := ⌊y⌋
  let r : ℚ := y - (f : ℚ)
  let n : ℤ :=
    if r < 1 / 2 then f
    else if r > 1 / 2 then f + 1
    else if f % 2 = 0 then f else f + 1
  (n : ℚ) / 1000

/-! ### Regex-search primitives

All `re.search` / `re.findall` uses in the source are over alternations of
literal words/phrases plus four simple token shapes (4-digit years,
quantities with units, capitalized bigrams, numbered-list markers).  A
regex `\b` between text and a pattern edge whose character is a word
character holds exactly when the adjacent text character is absent or not
a word character. -/

/-- `\b` holds between the preceding character (`none` = string edge) and a
pattern that starts with a word character. -/
def bdryBefore : Option Char → Bool
  | none => true
  | some c => !(isWordChar c)

/-- `\b` holds after a pattern that ends with a word character, looking at
the rest of the string. -/
def bdryAfter : Text → Bool
  | [] => true
  | c :: _ => !(isWordChar c)

/-- Scan every position of the text (tracking the previous character) for
one where `p` holds; models `re.search` for the head-matchers below. -/
def searchPos (p : Option Char → Text → Bool) : Option Char → Text → Bool
  | prev, [] => p prev []
  | prev, c :: rest => p prev (c :: rest) || searchPos p (some c) rest

/-- `re.search(r'\bLIT\b', t)` for a literal whose first and last
characters are word characters (true of every literal alternative used in
the source; literals may contain spaces). -/
def searchWB (lit : Text) (t : Text) : Bool :=
  searchPos
    (fun prev s => bdryBefore prev && lit.isPrefixOf s && bdryAfter (s.drop lit.length))
    none t

/-- `re.search(r'\b(l1|l2|…)\b', t)` for literal alternatives. -/
def searchAnyWB (lits : List Text) (t : Text) : Bool := lits.any (fun l => searchWB l t)

/-- One scanning pass of `len(re.findall(r'\b(l1|l2|…)\b', t))`: at each
position try the alternatives in order; on a match advance past it,
otherwise advance one character.  `fuel` bounds the recursion and is always
at least the length of the remaining text. -/
def findAllCountWBAux (lits : List Text) : Nat → Option Char → Text → Nat
  | 0, _, _ => 0
  | _, _, [] => 0
  | fuel + 1, prev, c :: rest =>
    match (if bdryBefore prev then
            lits.find? (fun l =>
              l.isPrefixOf (c :: rest) && bdryAfter ((c :: rest).drop l.length))
          else none) with
    | some l => 1 + findAllCountWBAux lits fuel (some (l.getLastD c)) ((c :: rest).drop l.length)
    | none => findAllCountWBAux lits fuel (some c) rest

/-- `len(re.findall(r'\b(l1|l2|…)\b', t))` for literal alternatives. -/
def findall_count_wb (lits : List Text) (t : Text) : Nat :=
  findAllCountWBAux lits t.length none t

/-- Search for `\b(b1|b2|…)\b` from the current position on, without
scanning past a newline: models the `.*` of the two-part contradiction
patterns, since `.` does not match `\n`. -/
def searchSecondWB (lits : List Text) : Option Char → Text → Bool
  | _, [] => false
  | prev, c :: rest =>
    (lits.any (fun l =>
      bdryBefore prev && l.isPrefixOf (c :: rest) && bdryAfter ((c :: rest).drop l.length))) ||
    (c ≠ '\n' && searchSecondWB lits (some c) rest)

/-- `re.search(r'\b(a…)\b.*\b(b…)\b', t)` for literal alternative groups
(`.` does not match `\n`). -/
def searchPairWB (alits blits : List Text) (t : Text) : Bool :=
  searchPos
    (fun prev s =>
      alits.any (fun l =>
        bdryBefore prev && l.isPrefixOf s && bdryAfter (s.drop l.length) &&
          searchSecondWB blits (some (l.getLastD ' ')) (s.drop l.length)))
    none t

/-- Search for a character satisfying `p2` from here on, without scanning
past a newline (the `.*` of `[;,].*[?]`-style patterns). -/
def searchCharAfter (p2 : Char → Bool) : Text → Bool
  | [] => false
  | c :: rest => p2 c || (c ≠ '\n' && searchCharAfter p2 rest)

/-- `re.search(r'[c1].*[c2]', t)` for single-character classes. -/
def searchCharPair (p1 p2 : Char → Bool) : Text → Bool
  | [] => false
  | c :: rest => (p1 c && searchCharAfter p2 rest) || searchCharPair p1 p2 rest

/-- `re.search(r'\b\d{4}\b', t)` (the year indicator). -/
def searchYear (t : Text) : Bool :=
  searchPos
    (fun prev s =>
      bdryBefore prev &&
        match s with
        | d1 :: d2 :: d3 :: d4 :: rest =>
          isDigitChar d1 && isDigitChar d2 && isDigitChar d3 && isDigitChar d4 &&
            bdryAfter rest
        | _ => false)
    none t

/-- Unit alternatives of the quantity regex in `_measure_specificity`,
with the optional plural `s?` expanded. -/
def quantityUnits : List Text :=
  [str "percent", str "%", str "degrees", str "degree", str "miles", str "mile",
   str "kilometers", str "kilometer", str "years", str "year",
   str "months", str "month", str "days", str "day"]

/-- Trailing `\b` after a matched unit `u`: if `u` ends in a word character
the next character must be absent or not a word character; if not (the `%`
unit) the next character must be a word character. -/
def unitBdry (u : Text) (rest : Text) : Bool :=
  if isWordChar (u.getLastD ' ') then bdryAfter rest
  else
    match rest with
    | [] => false
    | c :: _ => isWordChar c

/-- Head match of `\b\d+(\.\d+)?\s*(percent|%|degrees?|miles?|kilometers?|years?|months?|days?)\b`
(the quantity indicator of `_measure_specificity`).  Maximal munch is
equivalent to the regex's backtracking here because no unit alternative
begins with a digit, a dot or whitespace. -/
def quantityAt (prev : Option Char) (s : Text) : Bool :=
  bdryBefore prev &&
    (let ds := s.takeWhile isDigitChar
     !ds.isEmpty &&
       (let r1 := s.drop ds.length
        let r2 :=
          match r1 with
          | '.' :: r =>
            let fs := r.takeWhile isDigitChar
            if fs.isEmpty then r1 else r.drop fs.length
          | _ => r1
        let r3 := r2.dropWhile isSpaceChar
        quantityUnits.any (fun u => u.isPrefixOf r3 && unitBdry u (r3.drop u.length))))

def searchQuantity (t : Text) : Bool := searchPos quantityAt none t

def isUpperChar (c : Char) : Bool := 'A' ≤ c && c ≤ 'Z'

def isLowerChar (c : Char) : Bool := 'a' ≤ c && c ≤ 'z'

/-- Match `[A-Z][a-z]+` at the head, returning the rest on success. -/
def capWordAt : Text → Option Text
  | c :: rest =>
    if isUpperChar c then
      let ls := rest.takeWhile isLowerChar
      if ls.isEmpty then none else some (rest.drop ls.length)
    else none
  | [] => none

/-- Head match of `\b[A-Z][a-z]+\s+[A-Z][a-z]+\b` (the proper-noun
indicator of `_measure_specificity`). -/
def capBigramAt (prev : Option Char) (s : Text) : Bool :=
  bdryBefore prev &&
    match capWordAt s with
    | none => false
    | some r1 =>
      let sp := r1.takeWhile isSpaceChar
      !sp.isEmpty &&
        match capWordAt (r1.drop sp.length) with
        | none => false
        | some r2 => bdryAfter r2

def searchCapBigram (t : Text) : Bool := searchPos capBigramAt none t

/-- Head match of `\b\d+\.\s+` (the numbered-list indicator of
`_evaluate_structure`). -/
def numberedListAt (prev : Option Char) (s : Text) : Bool :=
  bdryBefore prev &&
    (let ds := s.takeWhile isDigitChar
     !ds.isEmpty &&
       match s.drop ds.length with
       | '.' :: c :: _ => isSpaceChar c
       | _ => false)

def searchNumberedList (t : Text) : Bool := searchPos numberedListAt none t

/-- The characters of the bullet class `[-â€¢*]` in `_evaluate_structure`
(the source file contains the UTF-8 mojibake of `•`). -/
def bulletChars : Text := str "-â€¢*"

/-- Does `\s*[-â€¢*]\s+` match at a line start here?  Maximal munch of
`\s*` is equivalent because the bullet characters are not whitespace. -/
def bulletAt (s : Text) : Bool :=
  match s.dropWhile isSpaceChar with
  | c :: d :: _ => bulletChars.contains c && isSpaceChar d
  | _ => false

def searchBulletAux : Text → Bool
  | [] => false
  | c :: rest => (c = '\n' && bulletAt rest) || searchBulletAux rest

/-- `re.search(r'^\s*[-â€¢*]\s+', t, re.MULTILINE)`: the anchor `^` matches
at the string start and after every newline. -/
def searchBullet (t : Text) : Bool := bulletAt t || searchBulletAux t

/-- Non-overlapping occurrence count of a literal (Python
`len(text.split(sep)) - 1` for a literal separator); fuel-based scan. -/
def countSepAux (pat : Text) : Nat → Text → Nat
  | 0, _ => 0
  | _, [] => 0
  | fuel + 1, c :: rest =>
    if pat.isPrefixOf (c :: rest) then 1 + countSepAux pat fuel ((c :: rest).drop pat.length)
    else countSepAux pat fuel rest

def countSep (pat t : Text) : Nat := countSepAux pat t.length t

/-- Plain substring test, Python's `pat in t`. -/
def containsSub (pat : Text) : Text → Bool
  | [] => pat.isPrefixOf []
  | c :: rest => pat.isPrefixOf (c :: rest) || containsSub pat rest

/-- `digits` of a `\d+` token as a natural number (`float` parse of the
integer part). -/
def digitsToNat (ds : Text) : Nat := ds.foldl (fun n c => 10 * n + (c.toNat - 48)) 0

/-- Value of a `\b\d+(?:\.\d+)?\b` match starting at the head of `s` (the
leading `\b` is the caller's responsibility): the regex takes the fractional
part when the trailing `\b` allows it and backtracks to the bare integer
otherwise. -/
def numberAt (s : Text) : Option ℚ :=
  let ds := s.takeWhile isDigitChar
  if ds.isEmpty then none
  else
    let r1 := s.drop ds.length
    match r1 with
    | '.' :: r =>
      let fs := r.takeWhile isDigitChar
      if !fs.isEmpty && bdryAfter (r.drop fs.length) then
        some ((digitsToNat ds : ℚ) + (digitsToNat fs : ℚ) / (10 : ℚ) ^ fs.length)
      else if bdryAfter r1 then some (digitsToNat ds : ℚ) else none
    | _ => if bdryAfter r1 then some (digitsToNat ds : ℚ) else none

def firstNumberAux : Option Char → Text → Option ℚ
  | _, [] => none
  | prev, c :: rest =>
    match (if bdryBefore prev then numberAt (c :: rest) else none) with
    | some q => some q
    | none => firstNumberAux (some c) rest

/-- The first number matched by `re.findall(r'\b\d+(?:\.\d+)?\b', t)`,
parsed as `float(...)` is in `_compare_numerical_values`; `none` exactly
when the findall list is empty. -/
def firstNumber (t : Text) : Option ℚ := firstNumberAux none t

/-! ### RelevanceEvaluator (`src/evaluators/relevance_evaluator.py`) -/

namespace RelevanceEvaluator

/-- `re.sub(r'[^\w\s]', ' ', text)`: the pattern matches single characters,
so the substitution is a character map. -/
def cleanChar (c : Char) : Char := if isWordChar c || isSpaceChar c then c else ' '

def clean (t : Text) : Text := t.map cleanChar

/-- The stop-word set of `_extract_key_terms`. -/
def stop_words : List Text :=
  [str "the", str "a", str "an", str "and", str "or", str "but", str "in", str "on",
   str "at", str "to", str "for", str "of", str "with", str "by", str "is", str "are",
   str "was", str "were", str "be", str "been", str "being", str "have", str "has",
   str "had", str "do", str "does", str "did", str "will", str "would", str "could",
   str "should", str "may", str "might", str "can", str "what", str "how", str "when",
   str "where", str "why", str "who", str "which", str "that", str "this", str "these",
   str "those", str "i", str "you", str "he", str "she", str "it", str "we", str "they",
   str "me", str "him", str "her", str "us", str "them"]

/-- `RelevanceEvaluator._extract_key_terms`: lowercase, blank out
punctuation, split on whitespace, keep tokens longer than two characters
that are not stop words, as a set. -/
def extract_key_terms (t : Text) : Finset Text :=
  ((pySplit (clean (pyLower t))).filter
    (fun w => decide (w.length > 2) && !(stop_words.contains w))).toFinset

/-- `RelevanceEvaluator._calculate_term_overlap`. -/
def calculate_term_overlap (query_terms answer_terms : Finset Text) : ℚ :=
  if query_terms = ∅ then 0
  else ((query_terms ∩ answer_terms).card : ℚ) / (query_terms.card : ℚ)

def direct_answer_phrases : List Text :=
  [str "the answer is", str "it is", str "this is", str "that is", str "because",
   str "due to", str "as a result", str "therefore", str "consequently"]

/-- `RelevanceEvaluator._check_direct_answer_patterns`.  Every membership
test in the source is Python `in`, i.e. a plain substring test over the
lowercased answer, and the wh-word cases form an `elif` chain. -/
def check_direct_answer_patterns (query answer : Text) : ℚ :=
  let ql := pyLower query
  let al := pyLower answer
  let whPart : ℚ :=
    if [str "what", str "how", str "when", str "where", str "why", str "who"].any
        (fun w => w.isPrefixOf ql) then
      (if direct_answer_phrases.any (fun p => containsSub p al) then 0.3 else 0) +
      (if (str "what").isPrefixOf ql &&
          [str "is", str "are", str "means", str "refers"].any (fun w => containsSub w al)
       then (0.2 : ℚ)
       else if (str "how").isPrefixOf ql &&
          [str "by", str "through", str "using", str "via"].any (fun w => containsSub w al)
       then 0.2
       else if (str "when").isPrefixOf ql &&
          [str "in", str "during", str "at", str "on"].any (fun w => containsSub w al)
       then 0.2
       else if (str "where").isPrefixOf ql &&
          [str "in", str "at", str "on", str "near"].any (fun w => containsSub w al)
       then 0.2
       else if (str "why").isPrefixOf ql &&
          [str "because", str "due", str "since"].any (fun w => containsSub w al)
       then 0.2
       else 0)
    else 0
  let impPart : ℚ :=
    if [str "explain", str "describe", str "list", str "compare"].any
        (fun w => w.isPrefixOf ql) && decide (count_words answer > 10)
    then 0.4 else 0
  min (whPart + impPart) 1

def apos : Char := Char.ofNat 39

/-- The refusal prefixes of `_evaluate_semantic_relevance` (the first one
contains an apostrophe). -/
def refusal_prefixes : List Text :=
  [str "i don" ++ [apos, 't'], str "i cannot", str "sorry"]

/-- `RelevanceEvaluator._evaluate_semantic_relevance`. -/
def evaluate_semantic_relevance (query answer : Text) : ℚ :=
  let query_words := (pySplit (pyLower query)).toFinset
  let answer_words := (pySplit (pyLower answer)).toFinset
  let s : ℚ := 0
  let s :=
    if 20 ≤ count_words answer ∧ count_words answer ≤ 200 then s + 0.3
    else if count_words answer < 5 then s - 0.2
    else s
  let s := if (query_words ∩ answer_words).card > 0 then s + 0.4 else s
  let s :=
    if pyStrip answer ≠ [] ∧
        ¬ (refusal_prefixes.any (fun p => p.isPrefixOf (pyLower answer)) = true)
    then s + 0.3 else s
  clamp01 s

/-- `RelevanceEvaluator._generate_relevance_analysis`. -/
def generate_relevance_analysis (_query _answer : Text) (score : ℚ) : String :=
  if score ≥ 0.8 then
    "Highly relevant - Answer directly addresses the query with good term overlap"
  else if score ≥ 0.6 then
    "Moderately relevant - Answer addresses the query but could be more focused"
  else if score ≥ 0.4 then
    "Somewhat relevant - Answer partially addresses the query but lacks focus"
  else
    "Low relevance - Answer does not adequately address the query"

/-- The `evaluation_details` dict of `RelevanceEvaluator.evaluate`; the two
term sets are Python sets (`list(...)` only fixes an iteration order). -/
structure Details where
  query_terms : Finset Text
  answer_terms : Finset Text
  term_overlap_score : ℚ
  direct_answer_score : ℚ
  semantic_score : ℚ
  analysis : String
deriving DecidableEq

/-- `RelevanceEvaluator.evaluate`. -/
def evaluate (query answer : Text) (_context _expected_answer : Option Text) :
    ℚ × Details :=
  let query_terms := extract_key_terms query
  let answer_terms := extract_key_terms answer
  let term_overlap_score := calculate_term_overlap query_terms answer_terms
  let direct_answer_score := check_direct_answer_patterns query answer
  let semantic_score := evaluate_semantic_relevance query answer
  let relevance_score :=
    term_overlap_score * 0.4 + direct_answer_score * 0.3 + semantic_score * 0.3
  (relevance_score,
   ⟨query_terms, answer_terms, pyRound3 term_overlap_score,
    pyRound3 direct_answer_score, pyRound3 semantic_score,
    generate_relevance_analysis query answer relevance_score⟩)

end RelevanceEvaluator

/-! ### AccuracyEvaluator (`src/evaluators/accuracy_evaluator.py`) -/

namespace AccuracyEvaluator

def fact_markers : List Text :=
  [str "is", str "are", str "was", str "were", str "has", str "have",
   str "contains", str "includes"]

/-- `AccuracyEvaluator._extract_key_facts`: the sentences whose lowercase
form contains one of the marker words as a substring.  (The source strips
each kept sentence again, a no-op on the already-stripped output of
`_split_into_sentences`.) -/
def extract_key_facts (t : Text) : List Text :=
  (split_into_sentences t).filter
    (fun s => fact_markers.any (fun p => containsSub p (pyLower s)))

def contradictory_pairs : List (Text × Text) :=
  [(str "true", str "false"), (str "yes", str "no"), (str "increase", str "decrease"),
   (str "positive", str "negative"), (str "good", str "bad"), (str "high", str "low")]

/-- `AccuracyEvaluator._are_contradictory`: substring tests of each antonym
pair in both directions over the lowercased facts. -/
def are_contradictory (fact1 fact2 : Text) : Bool :=
  let f1 := pyLower fact1
  let f2 := pyLower fact2
  contradictory_pairs.any (fun pr =>
    (containsSub pr.1 f1 && containsSub pr.2 f2) ||
    (containsSub pr.2 f1 && containsSub pr.1 f2))

/-- `AccuracyEvaluator._check_factual_consistency`: the nested loops count
matches (pairwise similarity above 0.7) and contradictions (similarity in
(0.3, 0.7] and flagged by `are_contradictory`); the score is their
difference over the number of expected facts, clamped.  (The source's
second `len(expected_facts) == 0` test is dead.) -/
def check_factual_consistency (answer expected_answer : Text) : ℚ :=
  let answer_facts := extract_key_facts answer
  let expected_facts := extract_key_facts expected_answer
  if expected_facts = [] then 0.5
  else
    let counts : ℤ × ℤ := answer_facts.foldl (fun acc fact =>
      expected_facts.foldl (fun acc2 expected_fact =>
        let similarity := calculate_text_similarity fact expected_fact
        if similarity > 0.7 then (acc2.1 + 1, acc2.2)
        else if decide (similarity > 0.3) && are_contradictory fact expected_fact then
          (acc2.1, acc2.2 + 1)
        else acc2) acc) (0, 0)
    clamp01 (((counts.1 - counts.2 : ℤ) : ℚ) / (expected_facts.length : ℚ))

/-- `AccuracyEvaluator._check_internal_consistency`: base 0.8 with a fixed
penalty per two-part contradiction pattern found in the lowercased answer. -/
def check_internal_consistency (answer : Text) : ℚ :=
  let sentences := split_into_sentences answer
  if sentences.length < 2 then 0.8
  else
    let al := pyLower answer
    let s : ℚ := 0.8
    let s :=
      if searchPairWB [str "yes", str "true", str "correct"]
          [str "no", str "false", str "incorrect"] al then s - 0.3 else s
    let s := if searchPairWB [str "always"] [str "never"] al then s - 0.2 else s
    let s := if searchPairWB [str "all"] [str "none"] al then s - 0.2 else s
    let s := if searchPairWB [str "increase"] [str "decrease"] al then s - 0.1 else s
    clamp01 s

/-- `AccuracyEvaluator._measure_specificity`.  Note that every indicator is
searched in `text.lower()`, including the `[A-Z]`-based proper-noun
pattern. -/
def measure_specificity (text : Text) : ℚ :=
  let tl := pyLower text
  let s : ℚ := 0.5
  let s := if searchQuantity tl then s + 0.1 else s
  let s :=
    if searchAnyWB [str "exactly", str "precisely", str "specifically",
        str "particularly"] tl then s + 0.1 else s
  let s := if searchYear tl then s + 0.1 else s
  let s := if searchCapBigram tl then s + 0.1 else s
  let s :=
    if searchAnyWB [str "some", str "many", str "few", str "several", str "various",
        str "different", str "often", str "sometimes", str "usually"] tl
    then s - 0.05 else s
  let s :=
    if searchAnyWB [str "approximately", str "roughly", str "about", str "around",
        str "nearly"] tl then s - 0.05 else s
  let s :=
    if searchAnyWB [str "might", str "could", str "may", str "possibly",
        str "probably", str "likely"] tl then s - 0.05 else s
  clamp01 s

/-- `AccuracyEvaluator._compare_numerical_values`.  The `except` branch of
the source is unreachable in this model: a token matched by the number
regex always parses as a float, and the divisor `max(abs(expected_num), 1)`
is at least 1. -/
def compare_numerical_values (answer expected_answer : Text) : ℚ :=
  match firstNumber answer, firstNumber expected_answer with
  | none, none => 0.8
  | none, some _ => 0.3
  | some _, none => 0.3
  | some answer_num, some expected_num =>
    if answer_num = expected_num then 1
    else max 0 (1 - |answer_num - expected_num| / max |expected_num| 1)

/-- `AccuracyEvaluator._evaluate_precision` (the expected answer's own
specificity is computed by the source but never used). -/
def evaluate_precision (answer expected_answer : Text) : ℚ :=
  (measure_specificity answer + compare_numerical_values answer expected_answer) / 2

def hedging_lits1 : List Text :=
  [str "i think", str "i believe", str "i guess", str "perhaps", str "maybe",
   str "possibly"]

def hedging_lits2 : List Text :=
  [str "sort of", str "kind of", str "somewhat", str "rather"]

/-- `AccuracyEvaluator._check_hedging_language`. -/
def check_hedging_language (answer : Text) : ℚ :=
  let al := pyLower answer
  let hedging_count := findall_count_wb hedging_lits1 al + findall_count_wb hedging_lits2 al
  let word_count := count_words answer
  let hedging_ratio := (hedging_count : ℚ) / (max word_count 1 : ℚ)
  min 0.3 (hedging_ratio * 2)

/-- `AccuracyEvaluator._evaluate_answer_precision`. -/
def evaluate_answer_precision (answer : Text) : ℚ :=
  clamp01 (measure_specificity answer - check_hedging_language answer)

/-- `AccuracyEvaluator._check_uncertainty_handling`. -/
def check_uncertainty_handling (answer : Text) : ℚ :=
  let al := pyLower answer
  let s : ℚ := 0.7
  let s :=
    if searchAnyWB [str "according to", str "based on", str "research suggests",
        str "studies show"] al then s + 0.1 else s
  let s :=
    if searchAnyWB [str "it depends", str "varies", str "may vary"] al
    then s + 0.1 else s
  let s :=
    if searchAnyWB [str "generally", str "typically", str "commonly", str "usually"] al
    then s + 0.1 else s
  let s :=
    if searchAnyWB [str "definitely", str "absolutely", str "certainly",
        str "without doubt"] al then s - 0.1 else s
  let s :=
    if searchAnyWB [str "never", str "always", str "all", str "none", str "every"] al
    then s - 0.1 else s
  clamp01 s

/-- The `accuracy_indicators` dict of `_identify_accuracy_indicators`. -/
structure Indicators where
  has_citations : Bool
  has_specific_numbers : Bool
  has_dates : Bool
  uses_hedging : Bool
  shows_uncertainty : Bool
deriving DecidableEq

def months : List Text :=
  [str "january", str "february", str "march", str "april", str "may", str "june",
   str "july", str "august", str "september", str "october", str "november",
   str "december"]

/-- `AccuracyEvaluator._identify_accuracy_indicators` (the number pattern
runs over the raw answer, the others over its lowercase form). -/
def identify_accuracy_indicators (answer : Text) : Indicators :=
  let al := pyLower answer
  ⟨searchAnyWB [str "according to", str "source", str "study", str "research"] al,
   (firstNumber answer).isSome,
   searchYear al || searchAnyWB months al,
   searchAnyWB [str "might", str "could", str "may", str "possibly", str "probably"] al,
   searchAnyWB [str "uncertain", str "unclear", str "unknown", str "varies"] al⟩

/-- `AccuracyEvaluator._generate_accuracy_analysis`. -/
def generate_accuracy_analysis (_answer : Text) (score : ℚ) (has_expected : Bool) :
    String :=
  let base_msg :=
    if score ≥ 0.8 then "High accuracy - Answer appears factually sound"
    else if score ≥ 0.6 then "Good accuracy - Answer is mostly accurate with minor issues"
    else if score ≥ 0.4 then "Moderate accuracy - Answer has some accuracy concerns"
    else "Low accuracy - Answer may contain factual errors or inconsistencies"
  if has_expected then base_msg ++ " (compared against expected answer)"
  else base_msg ++ " (evaluated using heuristic methods)"

/-- The `evaluation_details` dict of `AccuracyEvaluator.evaluate`. -/
structure Details where
  has_expected_answer : Bool
  similarity_score : ℚ
  factual_consistency_score : ℚ
  precision_score : ℚ
  uncertainty_score : ℚ
  accuracy_indicators : Indicators
  analysis : String
deriving DecidableEq

/-- `AccuracyEvaluator.evaluate`.  The branch on `expected_answer` is
Python truthiness (an empty string takes the no-reference branch), while
`has_expected_answer` in the details is `expected_answer is not None`. -/
def evaluate (_query answer : Text) (_context expected_answer : Option Text) :
    ℚ × Details :=
  let truthy :=
    match expected_answer with
    | none => false
    | some s => !s.isEmpty
  let exp := expected_answer.getD []
  let similarity_score :=
    if truthy then calculate_text_similarity answer exp else (0.5 : ℚ)
  let factual_consistency_score :=
    if truthy then check_factual_consistency answer exp
    else check_internal_consistency answer
  let precision_score :=
    if truthy then evaluate_precision answer exp else evaluate_answer_precision answer
  let uncertainty_score := check_uncertainty_handling answer
  let accuracy_score :=
    similarity_score * 0.3 + factual_consistency_score * 0.3 +
      precision_score * 0.2 + uncertainty_score * 0.2
  (accuracy_score,
   ⟨expected_answer.isSome,
    pyRound3 similarity_score, pyRound3 factual_consistency_score,
    pyRound3 precision_score, pyRound3 uncertainty_score,
    identify_accuracy_indicators answer,
    generate_accuracy_analysis answer accuracy_score expected_answer.isSome⟩)

end AccuracyEvaluator

/-! ### CoherenceEvaluator (`src/evaluators/coherence_evaluator.py`) -/

/-- Word tokens: maximal runs of `\w` characters.  A `findall` over an
alternation of whole words delimited by `\b` counts exactly the tokens
equal to one of them, and `\b\w+ed\b` matches exactly the tokens of length
at least 3 ending in `ed`. -/
def wordTokens (t : Text) : List Text := splitChunks (fun c => !isWordChar c) t

/-- `len(re.findall(r'\b(w1|w2|…)\b', t))` for single-word alternatives. -/
def countTokensIn (lits : List Text) (t : Text) : Nat :=
  (wordTokens t).countP (fun w => lits.contains w)

namespace CoherenceEvaluator

/-- `CoherenceEvaluator._evaluate_structure`. -/
def evaluate_structure (answer : Text) : ℚ :=
  let sentences := split_into_sentences answer
  if sentences.length = 0 then 0
  else if sentences.length = 1 then
    (if count_words answer > 5 then 0.7 else 0.4)
  else
    let al := pyLower answer
    let s : ℚ := 0.5
    let s :=
      if searchAnyWB [str "first", str "second", str "third", str "finally",
          str "lastly", str "in conclusion"] al then s + 0.1 else s
    let s :=
      if searchAnyWB [str "however", str "moreover", str "furthermore",
          str "additionally", str "therefore"] al then s + 0.1 else s
    let s :=
      if searchAnyWB [str "for example", str "for instance", str "such as",
          str "including"] al then s + 0.1 else s
    let s :=
      if searchAnyWB [str "because", str "since", str "due to", str "as a result"] al
      then s + 0.1 else s
    let s := if searchBullet answer then s + 0.2 else s
    let s := if searchNumberedList answer then s + 0.2 else s
    let word_count := count_words answer
    let s :=
      if word_count < 10 then s - 0.1
      else if word_count > 200 ∧ ¬ (searchCharPair isSentSep isSentSep answer = true)
      then s - 0.2
      else s
    clamp01 s

/-- The five transition classes of `_evaluate_logical_flow`. -/
def transition_classes : List (List Text) :=
  [[str "however", str "but", str "although", str "while", str "whereas"],
   [str "therefore", str "thus", str "consequently", str "as a result"],
   [str "furthermore", str "moreover", str "additionally", str "also"],
   [str "for example", str "for instance", str "specifically"],
   [str "first", str "second", str "next", str "then", str "finally"]]

/-- `CoherenceEvaluator._check_topic_continuity`: +0.02 per adjacent
sentence pair sharing at least two (lowercased, whitespace-split) words,
capped at 0.2. -/
def check_topic_continuity (sentences : List Text) : ℚ :=
  if sentences.length ≤ 1 then 0
  else
    let c := (sentences.zip sentences.tail).countP (fun pr =>
      decide (((pySplit (pyLower pr.1)).toFinset ∩ (pySplit (pyLower pr.2)).toFinset).card ≥ 2))
    min 0.2 ((c : ℚ) * 0.02)

/-- `CoherenceEvaluator._evaluate_logical_flow`. -/
def evaluate_logical_flow (answer : Text) : ℚ :=
  let sentences := split_into_sentences answer
  if sentences.length ≤ 1 then 0.8
  else
    let al := pyLower answer
    let transition_count := (transition_classes.map (fun cls => findall_count_wb cls al)).sum
    let transition_ratio := (transition_count : ℚ) / (max (sentences.length - 1) 1 : ℚ)
    let s : ℚ := 0.7
    let s :=
      if 0.2 ≤ transition_ratio ∧ transition_ratio ≤ 0.8 then s + 0.2
      else if transition_ratio > 0.8 then s - 0.1
      else s
    clamp01 (s + check_topic_continuity sentences)

/-- `CoherenceEvaluator._evaluate_readability`. -/
def evaluate_readability (answer : Text) : ℚ :=
  let s : ℚ := 0.6
  let sentences := split_into_sentences answer
  let s :=
    if sentences ≠ [] then
      let avg := ((sentences.map (fun x => (count_words x : ℚ))).sum) / (sentences.length : ℚ)
      if 10 ≤ avg ∧ avg ≤ 25 then s + 0.2
      else if avg > 30 then s - 0.2
      else if avg < 5 then s - 0.1
      else s
    else s
  let complex_punct_count :=
    answer.countP (fun c => c = ';' || c = ':' || c = '(' || c = ')' || c = '"')
  let word_count := count_words answer
  let s :=
    if word_count > 0 then
      let punct_ratio := (complex_punct_count : ℚ) / (word_count : ℚ)
      if 0.02 ≤ punct_ratio ∧ punct_ratio ≤ 0.1 then s + 0.1
      else if punct_ratio > 0.15 then s - 0.1
      else s
    else s
  let long_words := ((pySplit answer).filter (fun w => decide (w.length > 8))).length
  let s :=
    if word_count > 0 then
      if (long_words : ℚ) / (word_count : ℚ) > 0.3 then s - 0.1 else s
    else s
  clamp01 s

/-- `CoherenceEvaluator._evaluate_consistency`. -/
def evaluate_consistency (answer : Text) : ℚ :=
  let al := pyLower answer
  let s : ℚ := 0.8
  let past_tense_count := (wordTokens al).countP (fun w =>
    (decide (w.length ≥ 3) && (str "ed").isSuffixOf w) ||
      w == str "was" || w == str "were" || w == str "had")
  let present_tense_count := (wordTokens al).countP (fun w =>
    w == str "is" || w == str "are" || w == str "has" || w == str "have")
  let total := past_tense_count + present_tense_count
  let s :=
    if total > 0 then
      (s + (1 - |(past_tense_count : ℚ) - (present_tense_count : ℚ)| / (total : ℚ))) / 2
    else s
  let first_person := countTokensIn
    [str "i", str "me", str "my", str "mine", str "we", str "us", str "our", str "ours"] al
  let second_person := countTokensIn [str "you", str "your", str "yours"] al
  let third_person := countTokensIn
    [str "he", str "she", str "it", str "they", str "them", str "their", str "his",
     str "her", str "its"] al
  let active_persons :=
    (if first_person > 0 then 1 else 0) + (if second_person > 0 then 1 else 0) +
      (if third_person > 0 then 1 else 0)
  let s := if active_persons > 2 then s - 0.1 else s
  clamp01 s

/-- `CoherenceEvaluator._has_introduction`: `re.match` anchors each intro
pattern at the start of `answer.lower().strip()`. -/
def has_introduction (answer : Text) : Bool :=
  let al := pyStrip (pyLower answer)
  [str "to answer", str "in response", str "regarding", str "concerning",
   str "the answer is", str "this is", str "it is",
   str "let me explain", str "to understand"].any (fun p => p.isPrefixOf al)

/-- Search from here for `[.!?]\s*$` with the leading `.*` not crossing a
newline: a sentence-end character whose tail is all whitespace. -/
def concluderTailAux : Text → Bool
  | [] => false
  | c :: rest =>
    (isSentSep c && rest.all isSpaceChar) || (c ≠ '\n' && concluderTailAux rest)

/-- `CoherenceEvaluator._has_conclusion`: a concluding phrase anywhere, or
`\b(therefore|thus|as a result)\b.*[.!?]\s*$`. -/
def has_conclusion (answer : Text) : Bool :=
  let al := pyLower answer
  searchAnyWB [str "in conclusion", str "to conclude", str "finally", str "in summary"] al ||
  searchPos (fun prev s =>
    [str "therefore", str "thus", str "as a result"].any (fun l =>
      bdryBefore prev && l.isPrefixOf s && bdryAfter (s.drop l.length) &&
        concluderTailAux (s.drop l.length))) none al

/-- The `structure_analysis` dict of `_analyze_structure`. -/
structure StructureAnalysis where
  has_introduction : Bool
  has_conclusion : Bool
  has_transitions : Bool
  has_examples : Bool
  has_enumeration : Bool
  paragraph_count : Nat
deriving DecidableEq

/-- `CoherenceEvaluator._analyze_structure`. -/
def analyze_structure (answer : Text) : StructureAnalysis :=
  let al := pyLower answer
  ⟨has_introduction answer,
   has_conclusion answer,
   searchAnyWB [str "however", str "therefore", str "furthermore", str "moreover"] al,
   searchAnyWB [str "for example", str "for instance", str "such as"] al,
   searchAnyWB [str "first", str "second", str "third", str "finally"] al,
   if containsSub (str "\n\n") answer then countSep (str "\n\n") answer + 1 else 1⟩

/-- `CoherenceEvaluator._generate_coherence_analysis`. -/
def generate_coherence_analysis (_answer : Text) (score : ℚ) : String :=
  if score ≥ 0.8 then "Excellent coherence - Well-structured with clear logical flow"
  else if score ≥ 0.6 then "Good coherence - Generally well-organized with minor flow issues"
  else if score ≥ 0.4 then "Moderate coherence - Some structural issues affecting readability"
  else "Poor coherence - Significant issues with structure and logical flow"

/-- The `evaluation_details` dict of `CoherenceEvaluator.evaluate`. -/
structure Details where
  structure_score : ℚ
  flow_score : ℚ
  readability_score : ℚ
  consistency_score : ℚ
  sentence_count : Nat
  word_count : Nat
  structure_analysis : StructureAnalysis
  analysis : String
deriving DecidableEq

/-- `CoherenceEvaluator.evaluate`. -/
def evaluate (_query answer : Text) (_context _expected_answer : Option Text) :
    ℚ × Details :=
  let structure_score := evaluate_structure answer
  let flow_score := evaluate_logical_flow answer
  let readability_score := evaluate_readability answer
  let consistency_score := evaluate_consistency answer
  let coherence_score :=
    structure_score * 0.3 + flow_score * 0.3 + readability_score * 0.2 +
      consistency_score * 0.2
  (coherence_score,
   ⟨pyRound3 structure_score, pyRound3 flow_score, pyRound3 readability_score,
    pyRound3 consistency_score, count_sentences answer, count_words answer,
    analyze_structure answer, generate_coherence_analysis answer coherence_score⟩)

end CoherenceEvaluator

/-! ### CompletenessEvaluator (`src/evaluators/completeness_evaluator.py`) -/

def isAlphaChar (c : Char) : Bool := isUpperChar c || isLowerChar c

namespace CompletenessEvaluator

/-- `CompletenessEvaluator._identify_question_type`. -/
def identify_question_type (query : Text) : String :=
  let ql := pyStrip (pyLower query)
  if (str "what").isPrefixOf ql then "definition/explanation"
  else if (str "how").isPrefixOf ql then "process/method"
  else if (str "why").isPrefixOf ql then "reasoning/cause"
  else if (str "when").isPrefixOf ql then "temporal"
  else if (str "where").isPrefixOf ql then "location"
  else if (str "who").isPrefixOf ql then "person/entity"
  else if (str "compare").isPrefixOf ql || (str "contrast").isPrefixOf ql then "comparison"
  else if (str "list").isPrefixOf ql || (str "enumerate").isPrefixOf ql then "enumeration"
  else if (str "explain").isPrefixOf ql || (str "describe").isPrefixOf ql then "explanation"
  else "general"

def complexity_indicators : List Text :=
  [str "and", str "or", str "but", str "however", str "also", str "additionally",
   str "compare", str "contrast", str "analyze", str "evaluate", str "discuss"]

/-- `CompletenessEvaluator._assess_query_complexity`: each indicator counts
once if it occurs as a substring of the lowercased query. -/
def assess_query_complexity (query : Text) : String :=
  let word_count := count_words query
  let complex_count :=
    (complexity_indicators.filter (fun ind => containsSub ind (pyLower query))).length
  if word_count > 20 ∨ complex_count > 2 then "high"
  else if word_count > 10 ∨ complex_count > 0 then "medium"
  else "low"

/-- `CompletenessEvaluator._has_multiple_parts`. -/
def has_multiple_parts (query : Text) : Bool :=
  let ql := pyLower query
  searchWB (str "and") ql || searchWB (str "or") ql || searchWB (str "also") ql ||
  searchWB (str "additionally") ql ||
  searchCharPair (fun c => c = '?') (fun c => c = '?') ql ||
  searchCharPair (fun c => c = ';' || c = ',') (fun c => c = '?') ql ||
  searchAnyWB [str "first", str "second", str "third"] ql

/-- `CompletenessEvaluator._requires_examples` (substring tests). -/
def requires_examples (query : Text) : Bool :=
  [str "example", str "examples", str "instance", str "such as", str "like",
   str "demonstrate", str "illustrate", str "show"].any
    (fun ind => containsSub ind (pyLower query))

/-- `CompletenessEvaluator._requires_explanation` (substring tests). -/
def requires_explanation (query : Text) : Bool :=
  [str "explain", str "describe", str "how", str "why", str "what is",
   str "what are", str "detail", str "elaborate", str "discuss"].any
    (fun ind => containsSub ind (pyLower query))

/-- `CompletenessEvaluator._requires_comparison` (substring tests). -/
def requires_comparison (query : Text) : Bool :=
  [str "compare", str "contrast", str "difference", str "similar", str "versus",
   str "vs", str "better", str "worse", str "advantage", str "disadvantage"].any
    (fun ind => containsSub ind (pyLower query))

def topic_stop_words : List Text :=
  [str "what", str "how", str "when", str "where", str "why", str "who", str "which",
   str "that", str "the", str "and", str "for", str "are", str "you", str "can",
   str "does", str "will"]

/-- `CompletenessEvaluator._extract_key_topics`:
`re.findall(r'\b[A-Za-z]{3,}\b', query)` matches exactly the maximal word
runs that are purely alphabetic and at least three characters long; they
are lowercased, stop-filtered and deduplicated into a set. -/
def extract_key_topics (query : Text) : Finset Text :=
  List.toFinset
    ((((wordTokens query).filter
        (fun w => decide (w.length ≥ 3) && w.all isAlphaChar)).map pyLower).filter
      (fun w => !topic_stop_words.contains w))

/-- The `aspects` dict of `_analyze_query_aspects`. -/
structure QueryAspects where
  question_type : String
  complexity : String
  multiple_parts : Bool
  requires_examples : Bool
  requires_explanation : Bool
  requires_comparison : Bool
  key_topics : Finset Text
deriving DecidableEq

/-- `CompletenessEvaluator._analyze_query_aspects`. -/
def analyze_query_aspects (query : Text) : QueryAspects :=
  ⟨identify_question_type query, assess_query_complexity query,
   has_multiple_parts query, requires_examples query, requires_explanation query,
   requires_comparison query, extract_key_topics query⟩

/-- `CompletenessEvaluator._has_definition_elements`. -/
def has_definition_elements (answer : Text) : Bool :=
  let al := pyLower answer
  searchPairWB [str "is"] [str "a"] al ||
  searchPairWB [str "are"] [str "that"] al ||
  searchWB (str "means") al || searchWB (str "refers to") al ||
  searchWB (str "defined as") al || searchWB (str "known as") al

/-- `CompletenessEvaluator._has_process_elements`. -/
def has_process_elements (answer : Text) : Bool :=
  let al := pyLower answer
  searchAnyWB [str "first", str "second", str "third", str "next", str "then",
    str "finally"] al ||
  searchAnyWB [str "step", str "stage", str "phase", str "process"] al ||
  searchAnyWB [str "by", str "through", str "using", str "via"] al

/-- `CompletenessEvaluator._has_reasoning_elements`. -/
def has_reasoning_elements (answer : Text) : Bool :=
  let al := pyLower answer
  searchAnyWB [str "because", str "since", str "due to", str "as a result",
    str "therefore", str "thus"] al ||
  searchAnyWB [str "reason", str "cause", str "factor", str "leads to",
    str "results in"] al

/-- `CompletenessEvaluator._has_comparison_elements`. -/
def has_comparison_elements (answer : Text) : Bool :=
  let al := pyLower answer
  searchAnyWB [str "compared to", str "versus", str "vs", str "while", str "whereas",
    str "however"] al ||
  searchAnyWB [str "similar", str "different", str "alike", str "unlike", str "better",
    str "worse"] al ||
  searchAnyWB [str "advantage", str "disadvantage", str "benefit", str "drawback"] al

/-- `CompletenessEvaluator._addresses_multiple_aspects`. -/
def addresses_multiple_aspects (answer : Text) : Bool :=
  let al := pyLower answer
  searchAnyWB [str "also", str "additionally", str "furthermore", str "moreover"] al ||
  searchAnyWB [str "another", str "other", str "second", str "third"] al ||
  searchAnyWB [str "in addition", str "as well", str "besides"] al

/-- `CompletenessEvaluator._evaluate_aspect_coverage`. -/
def evaluate_aspect_coverage (_query answer : Text) (query_aspects : QueryAspects) : ℚ :=
  let s : ℚ := 0.5
  let s :=
    if query_aspects.question_type = "definition/explanation" then
      if has_definition_elements answer then s + 0.2 else s
    else if query_aspects.question_type = "process/method" then
      if has_process_elements answer then s + 0.2 else s
    else if query_aspects.question_type = "reasoning/cause" then
      if has_reasoning_elements answer then s + 0.2 else s
    else if query_aspects.question_type = "comparison" then
      if has_comparison_elements answer then s + 0.2 else s
    else s
  let s :=
    if query_aspects.key_topics ≠ ∅ then
      let al := pyLower answer
      let covered := (query_aspects.key_topics.filter
        (fun tp => containsSub tp al = true)).card
      s + ((covered : ℚ) / (query_aspects.key_topics.card : ℚ)) * 0.3
    else s
  let s :=
    if query_aspects.multiple_parts then
      if addresses_multiple_aspects answer then s + 0.2 else s - 0.1
    else s
  clamp01 s

/-- The four depth-indicator classes of `_evaluate_response_depth`. -/
def depth_indicator_classes : List (List Text) :=
  [[str "because", str "since", str "due to", str "as a result", str "therefore"],
   [str "for example", str "for instance", str "such as", str "including"],
   [str "however", str "but", str "although", str "while", str "whereas"],
   [str "furthermore", str "moreover", str "additionally", str "also"]]

/-- `CompletenessEvaluator._evaluate_response_depth` (the sentence count is
computed by the source but never used). -/
def evaluate_response_depth (answer : Text) : ℚ :=
  let word_count := count_words answer
  let s : ℚ := 0.5
  let s :=
    if word_count ≥ 100 then s + 0.3
    else if word_count ≥ 50 then s + 0.2
    else if word_count ≥ 20 then s + 0.1
    else if word_count < 10 then s - 0.2
    else s
  let al := pyLower answer
  let depth_indicator_count :=
    (depth_indicator_classes.map (fun cls => findall_count_wb cls al)).sum
  let s :=
    if depth_indicator_count ≥ 3 then s + 0.2
    else if depth_indicator_count ≥ 1 then s + 0.1
    else s
  clamp01 s

/-- `CompletenessEvaluator._evaluate_comprehensiveness`. -/
def evaluate_comprehensiveness (answer : Text) : ℚ :=
  let al := pyLower answer
  let element_count : Nat :=
    (if searchAnyWB [str "for example", str "for instance", str "such as"] al
     then 1 else 0) +
    (if searchAnyWB [str "because", str "since", str "due to", str "therefore"] al
     then 1 else 0) +
    (if searchAnyWB [str "context", str "background", str "historically",
        str "traditionally"] al then 1 else 0) +
    (if searchAnyWB [str "implication", str "consequence", str "result",
        str "impact"] al then 1 else 0) +
    (if searchAnyWB [str "alternative", str "option", str "choice", str "instead"] al
     then 1 else 0)
  clamp01 (0.6 + (element_count : ℚ) * 0.08)

/-- `CompletenessEvaluator._compare_with_expected`: the fraction of
expected sentences matched (similarity above 0.3, the inner loop breaks at
the first match) by some answer sentence. -/
def compare_with_expected (answer expected_answer : Text) : ℚ :=
  let expected_sentences := split_into_sentences expected_answer
  let answer_sentences := split_into_sentences answer
  if expected_sentences = [] then 0.7
  else
    let coverage_count := expected_sentences.countP (fun es =>
      answer_sentences.any (fun as_ =>
        decide (calculate_text_similarity es as_ > 0.3)))
    (coverage_count : ℚ) / (expected_sentences.length : ℚ)

/-- The `completeness_indicators` dict of
`_identify_completeness_indicators`. -/
structure Indicators where
  has_examples : Bool
  has_reasoning : Bool
  has_multiple_points : Bool
  has_context : Bool
  has_implications : Bool
  addresses_alternatives : Bool
deriving DecidableEq

/-- `CompletenessEvaluator._identify_completeness_indicators`. -/
def identify_completeness_indicators (answer : Text) : Indicators :=
  let al := pyLower answer
  ⟨searchAnyWB [str "for example", str "for instance", str "such as"] al,
   searchAnyWB [str "because", str "since", str "therefore"] al,
   searchAnyWB [str "first", str "second", str "also", str "additionally"] al,
   searchAnyWB [str "context", str "background", str "history"] al,
   searchAnyWB [str "implication", str "consequence", str "impact"] al,
   searchAnyWB [str "alternative", str "option", str "instead"] al⟩

/-- `CompletenessEvaluator._generate_completeness_analysis`. -/
def generate_completeness_analysis (_answer : Text) (score : ℚ)
    (query_aspects : QueryAspects) : String :=
  let base_msg :=
    if score ≥ 0.8 then "Highly complete - Thoroughly addresses the query"
    else if score ≥ 0.6 then "Good completeness - Covers most important aspects"
    else if score ≥ 0.4 then "Moderate completeness - Addresses some aspects but lacks depth"
    else "Low completeness - Missing significant aspects of the query"
  if query_aspects.complexity = "high" then
    base_msg ++ " (complex query with multiple aspects)"
  else if query_aspects.complexity = "low" then
    base_msg ++ " (straightforward query)"
  else base_msg ++ " (moderately complex query)"

/-- The `evaluation_details` dict of `CompletenessEvaluator.evaluate`. -/
structure Details where
  query_aspects : QueryAspects
  coverage_score : ℚ
  depth_score : ℚ
  comprehensive_score : ℚ
  expected_coverage_score : ℚ
  response_length : Nat
  completeness_indicators : Indicators
  analysis : String
deriving DecidableEq

/-- `CompletenessEvaluator.evaluate`.  The branch on `expected_answer` is
Python truthiness: an empty string takes the neutral-0.7 branch. -/
def evaluate (query answer : Text) (_context expected_answer : Option Text) :
    ℚ × Details :=
  let truthy :=
    match expected_answer with
    | none => false
    | some s => !s.isEmpty
  let query_aspects := analyze_query_aspects query
  let coverage_score := evaluate_aspect_coverage query answer query_aspects
  let depth_score := evaluate_response_depth answer
  let comprehensive_score := evaluate_comprehensiveness answer
  let expected_coverage_score :=
    if truthy then compare_with_expected answer (expected_answer.getD []) else (0.7 : ℚ)
  let completeness_score :=
    coverage_score * 0.3 + depth_score * 0.25 + comprehensive_score * 0.25 +
      expected_coverage_score * 0.2
  (completeness_score,
   ⟨query_aspects, pyRound3 coverage_score, pyRound3 depth_score,
    pyRound3 comprehensive_score, pyRound3 expected_coverage_score,
    count_words answer, identify_completeness_indicators answer,
    generate_completeness_analysis answer completeness_score query_aspects⟩)

end CompletenessEvaluator

/-! ### Aggregation (`src/main.py`, `evaluate_llm_response`) -/

namespace Main

/-- The score produced by the `evaluators` dict entry for a criterion name,
`none` for an unknown criterion. -/
def criterionScore (criterion : String) (query answer : Text)
    (context expected_answer : Option Text) : Option ℚ :=
  if criterion = "relevance" then
    some (RelevanceEvaluator.evaluate query answer context expected_answer).1
  else if criterion = "accuracy" then
    some (AccuracyEvaluator.evaluate query answer context expected_answer).1
  else if criterion = "coherence" then
    some (CoherenceEvaluator.evaluate query answer context expected_answer).1
  else if criterion = "completeness" then
    some (CompletenessEvaluator.evaluate query answer context expected_answer).1
  else none

/-- Python dict assignment `detailed_scores[criterion] = score`: overwrite
in place if the key exists, otherwise append. -/
def insertScore (l : List (String × ℚ)) (k : String) (v : ℚ) : List (String × ℚ) :=
  if l.any (fun p => p.1 == k) then
    l.map (fun p => if p.1 = k then (k, v) else p)
  else l ++ [(k, v)]

/-- The `detailed_scores` dict after the criterion loop of
`evaluate_llm_response`: recognized criteria are evaluated, unknown ones
are skipped (with a logged warning). -/
def detailed_scores (criteria : List String) (query answer : Text)
    (context expected_answer : Option Text) : List (String × ℚ) :=
  criteria.foldl (fun acc criterion =>
    match criterionScore criterion query answer context expected_answer with
    | some v => insertScore acc criterion v
    | none => acc) []

/-- The `overall_score` of `evaluate_llm_response`: the mean of the scores
actually computed, or 0.0 when none were. -/
def overall_score (criteria : List String) (query answer : Text)
    (context expected_answer : Option Text) : ℚ :=
  let ds := detailed_scores criteria query answer context expected_answer
  if ds = [] then 0
  else ((ds.map (fun p => p.2)).sum) / (ds.length : ℚ)

end Main

/-! ### Bound helpers -/

theorem clamp01_nonneg (x : ℚ) : 0 ≤ clamp01 x := le_max_left 0 _

theorem clamp01_le_one (x : ℚ) : clamp01 x ≤ 1 := max_le (by norm_num) (min_le_left 1 x)

theorem clamp01_bounds (x : ℚ) : 0 ≤ clamp01 x ∧ clamp01 x ≤ 1 :=
  ⟨clamp01_nonneg x, clamp01_le_one x⟩

theorem ite_bounds {c : Prop} [Decidable c] {a b : ℚ}
    (ha : 0 ≤ a ∧ a ≤ 1) (hb : 0 ≤ b ∧ b ≤ 1) :
    0 ≤ (if c then a else b) ∧ (if c then a else b) ≤ 1 := by
  split <;> assumption

theorem iteq_nonneg {c : Prop} [Decidable c] {a b : ℚ} (ha : 0 ≤ a) (hb : 0 ≤ b) :
    0 ≤ if c then a else b := by
  split <;> assumption

theorem weighted3 {a b c : ℚ} (ha : 0 ≤ a ∧ a ≤ 1) (hb : 0 ≤ b ∧ b ≤ 1)
    (hc : 0 ≤ c ∧ c ≤ 1) :
    0 ≤ a * 0.4 + b * 0.3 + c * 0.3 ∧ a * 0.4 + b * 0.3 + c * 0.3 ≤ 1 := by
  obtain ⟨ha0, ha1⟩ := ha
  obtain ⟨hb0, hb1⟩ := hb
  obtain ⟨hc0, hc1⟩ := hc
  constructor <;> nlinarith

theorem weighted4 {a b c d : ℚ} (ha : 0 ≤ a ∧ a ≤ 1) (hb : 0 ≤ b ∧ b ≤ 1)
    (hc : 0 ≤ c ∧ c ≤ 1) (hd : 0 ≤ d ∧ d ≤ 1) :
    0 ≤ a * 0.3 + b * 0.3 + c * 0.2 + d * 0.2 ∧
      a * 0.3 + b * 0.3 + c * 0.2 + d * 0.2 ≤ 1 := by
  obtain ⟨ha0, ha1⟩ := ha
  obtain ⟨hb0, hb1⟩ := hb
  obtain ⟨hc0, hc1⟩ := hc
  obtain ⟨hd0, hd1⟩ := hd
  constructor <;> nlinarith

theorem weighted4c {a b c d : ℚ} (ha : 0 ≤ a ∧ a ≤ 1) (hb : 0 ≤ b ∧ b ≤ 1)
    (hc : 0 ≤ c ∧ c ≤ 1) (hd : 0 ≤ d ∧ d ≤ 1) :
    0 ≤ a * 0.3 + b * 0.25 + c * 0.25 + d * 0.2 ∧
      a * 0.3 + b * 0.25 + c * 0.25 + d * 0.2 ≤ 1 := by
  obtain ⟨ha0, ha1⟩ := ha
  obtain ⟨hb0, hb1⟩ := hb
  obtain ⟨hc0, hc1⟩ := hc
  obtain ⟨hd0, hd1⟩ := hd
  constructor <;> nlinarith

theorem sim_bounds (a b : Text) :
    0 ≤ calculate_text_similarity a b ∧ calculate_text_similarity a b ≤ 1 := by
  unfold calculate_text_similarity
  set A := (pySplit (pyLower a)).toFinset with hA
  set B := (pySplit (pyLower b)).toFinset with hB
  by_cases h1 : A = ∅ ∧ B = ∅
  · rw [if_pos h1]; norm_num
  · rw [if_neg h1]
    by_cases h2 : A = ∅ ∨ B = ∅
    · rw [if_pos h2]; norm_num
    · rw [if_neg h2]
      push_neg at h2
      have hU : 0 < ((A ∪ B).card : ℚ) := by
        have hne : (A ∪ B).Nonempty := Finset.nonempty_iff_ne_empty.mpr (by
          intro hc
          exact h2.1 (Finset.union_eq_empty.mp hc).1)
        exact_mod_cast Finset.card_pos.mpr hne
      constructor
      · apply div_nonneg _ hU.le
        positivity
      · rw [div_le_one hU]
        exact_mod_cast Finset.card_le_card Finset.inter_subset_union

theorem term_overlap_bounds (Q A : Finset Text) :
    0 ≤ RelevanceEvaluator.calculate_term_overlap Q A ∧
      RelevanceEvaluator.calculate_term_overlap Q A ≤ 1 := by
  unfold RelevanceEvaluator.calculate_term_overlap
  by_cases h : Q = ∅
  · rw [if_pos h]; norm_num
  · rw [if_neg h]
    have hQ : 0 < (Q.card : ℚ) := by
      exact_mod_cast Finset.card_pos.mpr (Finset.nonempty_iff_ne_empty.mpr h)
    constructor
    · apply div_nonneg _ hQ.le
      positivity
    · rw [div_le_one hQ]
      exact_mod_cast Finset.card_le_card Finset.inter_subset_left

theorem direct_bounds (q a : Text) :
    0 ≤ RelevanceEvaluator.check_direct_answer_patterns q a ∧
      RelevanceEvaluator.check_direct_answer_patterns q a ≤ 1 := by
  unfold RelevanceEvaluator.check_direct_answer_patterns
  refine ⟨le_min (add_nonneg ?_ ?_) (by norm_num), min_le_right _ _⟩
  · exact iteq_nonneg (add_nonneg (iteq_nonneg (by norm_num) le_rfl)
      (iteq_nonneg (by norm_num) (iteq_nonneg (by norm_num) (iteq_nonneg (by norm_num)
        (iteq_nonneg (by norm_num) (iteq_nonneg (by norm_num) le_rfl)))))) le_rfl
  · exact iteq_nonneg (by norm_num) le_rfl

theorem semantic_bounds (q a : Text) :
    0 ≤ RelevanceEvaluator.evaluate_semantic_relevance q a ∧
      RelevanceEvaluator.evaluate_semantic_relevance q a ≤ 1 :=
  clamp01_bounds _

theorem relevance_score_bounds (q a : Text) (c e : Option Text) :
    0 ≤ (RelevanceEvaluator.evaluate q a c e).1 ∧
      (RelevanceEvaluator.evaluate q a c e).1 ≤ 1 :=
  weighted3 (term_overlap_bounds _ _) (direct_bounds q a) (semantic_bounds q a)

theorem specificity_bounds (t : Text) :
    0 ≤ AccuracyEvaluator.measure_specificity t ∧
      AccuracyEvaluator.measure_specificity t ≤ 1 :=
  clamp01_bounds _

theorem factual_bounds (a e : Text) :
    0 ≤ AccuracyEvaluator.check_factual_consistency a e ∧
      AccuracyEvaluator.check_factual_consistency a e ≤ 1 := by
  unfold AccuracyEvaluator.check_factual_consistency
  dsimp only
  split
  · norm_num
  · exact clamp01_bounds _

theorem internal_bounds (a : Text) :
    0 ≤ AccuracyEvaluator.check_internal_consistency a ∧
      AccuracyEvaluator.check_internal_consistency a ≤ 1 := by
  unfold AccuracyEvaluator.check_internal_consistency
  dsimp only
  split
  · norm_num
  · exact clamp01_bounds _

theorem compare_numerical_bounds (a e : Text) :
    0 ≤ AccuracyEvaluator.compare_numerical_values a e ∧
      AccuracyEvaluator.compare_numerical_values a e ≤ 1 := by
  unfold AccuracyEvaluator.compare_numerical_values
  rcases hfa : firstNumber a with _ | x <;> rcases hfe : firstNumber e with _ | y <;>
    simp only [hfa, hfe]
  · norm_num
  · norm_num
  · norm_num
  · split
    · norm_num
    · constructor
      · exact le_max_left 0 _
      · refine max_le (by norm_num) ?_
        have h1 : 0 ≤ |x - y| / max |y| 1 := by positivity
        linarith

theorem precision_bounds (a e : Text) :
    0 ≤ AccuracyEvaluator.evaluate_precision a e ∧
      AccuracyEvaluator.evaluate_precision a e ≤ 1 := by
  obtain ⟨h1, h2⟩ := specificity_bounds a
  obtain ⟨h3, h4⟩ := compare_numerical_bounds a e
  unfold AccuracyEvaluator.evaluate_precision
  constructor <;> linarith

theorem answer_precision_bounds (a : Text) :
    0 ≤ AccuracyEvaluator.evaluate_answer_precision a ∧
      AccuracyEvaluator.evaluate_answer_precision a ≤ 1 :=
  clamp01_bounds _

theorem uncertainty_bounds (a : Text) :
    0 ≤ AccuracyEvaluator.check_uncertainty_handling a ∧
      AccuracyEvaluator.check_uncertainty_handling a ≤ 1 :=
  clamp01_bounds _

theorem accuracy_score_bounds (q a : Text) (c e : Option Text) :
    0 ≤ (AccuracyEvaluator.evaluate q a c e).1 ∧
      (AccuracyEvaluator.evaluate q a c e).1 ≤ 1 :=
  weighted4
    (ite_bounds (sim_bounds a _) (by norm_num))
    (ite_bounds (factual_bounds a _) (internal_bounds a))
    (ite_bounds (precision_bounds a _) (answer_precision_bounds a))
    (uncertainty_bounds a)

theorem structure_bounds (a : Text) :
    0 ≤ CoherenceEvaluator.evaluate_structure a ∧
      CoherenceEvaluator.evaluate_structure a ≤ 1 := by
  simp only [CoherenceEvaluator.evaluate_structure]
  by_cases h0 : (split_into_sentences a).length = 0
  · rw [if_pos h0]
    norm_num
  · rw [if_neg h0]
    by_cases h1 : (split_into_sentences a).length = 1
    · rw [if_pos h1]
      by_cases h5 : count_words a > 5
      · rw [if_pos h5]
        norm_num
      · rw [if_neg h5]
        norm_num
    · rw [if_neg h1]
      exact clamp01_bounds _

theorem flow_bounds (a : Text) :
    0 ≤ CoherenceEvaluator.evaluate_logical_flow a ∧
      CoherenceEvaluator.evaluate_logical_flow a ≤ 1 := by
  unfold CoherenceEvaluator.evaluate_logical_flow
  dsimp only
  split
  · norm_num
  · exact clamp01_bounds _

theorem readability_bounds (a : Text) :
    0 ≤ CoherenceEvaluator.evaluate_readability a ∧
      CoherenceEvaluator.evaluate_readability a ≤ 1 :=
  clamp01_bounds _

theorem consistency_bounds (a : Text) :
    0 ≤ CoherenceEvaluator.evaluate_consistency a ∧
      CoherenceEvaluator.evaluate_consistency a ≤ 1 :=
  clamp01_bounds _

theorem coherence_score_bounds (q a : Text) (c e : Option Text) :
    0 ≤ (CoherenceEvaluator.evaluate q a c e).1 ∧
      (CoherenceEvaluator.evaluate q a c e).1 ≤ 1 :=
  weighted4 (structure_bounds a) (flow_bounds a) (readability_bounds a)
    (consistency_bounds a)

theorem coverage_bounds (q a : Text) (asp : CompletenessEvaluator.QueryAspects) :
    0 ≤ CompletenessEvaluator.evaluate_aspect_coverage q a asp ∧
      CompletenessEvaluator.evaluate_aspect_coverage q a asp ≤ 1 :=
  clamp01_bounds _

theorem depth_bounds (a : Text) :
    0 ≤ CompletenessEvaluator.evaluate_response_depth a ∧
      CompletenessEvaluator.evaluate_response_depth a ≤ 1 :=
  clamp01_bounds _

theorem comprehensiveness_bounds (a : Text) :
    0 ≤ CompletenessEvaluator.evaluate_comprehensiveness a ∧
      CompletenessEvaluator.evaluate_comprehensiveness a ≤ 1 :=
  clamp01_bounds _

theorem compare_with_expected_bounds (a e : Text) :
    0 ≤ CompletenessEvaluator.compare_with_expected a e ∧
      CompletenessEvaluator.compare_with_expected a e ≤ 1 := by
  unfold CompletenessEvaluator.compare_with_expected
  dsimp only
  split
  · norm_num
  · next h =>
    have hl : 0 < (split_into_sentences e).length := List.length_pos.mpr h
    have hpos : 0 < ((split_into_sentences e).length : ℚ) := by exact_mod_cast hl
    constructor
    · apply div_nonneg _ hpos.le
      positivity
    · rw [div_le_one hpos]
      exact_mod_cast List.countP_le_length _

theorem completeness_score_bounds (q a : Text) (c e : Option Text) :
    0 ≤ (CompletenessEvaluator.evaluate q a c e).1 ∧
      (CompletenessEvaluator.evaluate q a c e).1 ≤ 1 :=
  weighted4c (coverage_bounds q a _) (depth_bounds a) (comprehensiveness_bounds a)
    (ite_bounds (compare_with_expected_bounds a _) (by norm_num))

/-! ### Claim theorems -/

/-- C1: for every input `(query, answer, context, expected_answer)`, each of
the four scorers' `evaluate` returns a top-level score in `[0, 1]`: every
sub-score is clamped or provably in range, and the fixed-weight
combinations (weights summing to 1) keep the unclamped weighted sums in
range. -/
theorem scores_in_unit_interval (q a : Text) (c e : Option Text) :
    (RelevanceEvaluator.evaluate q a c e).1 ∈ Set.Icc (0 : ℚ) 1 ∧
    (AccuracyEvaluator.evaluate q a c e).1 ∈ Set.Icc (0 : ℚ) 1 ∧
    (CoherenceEvaluator.evaluate q a c e).1 ∈ Set.Icc (0 : ℚ) 1 ∧
    (CompletenessEvaluator.evaluate q a c e).1 ∈ Set.Icc (0 : ℚ) 1 :=
  ⟨Set.mem_Icc.mpr (relevance_score_bounds q a c e),
   Set.mem_Icc.mpr (accuracy_score_bounds q a c e),
   Set.mem_Icc.mpr (coherence_score_bounds q a c e),
   Set.mem_Icc.mpr (completeness_score_bounds q a c e)⟩

theorem sim_self (x : Text) : calculate_text_similarity x x = 1 := by
  simp only [calculate_text_similarity]
  by_cases h : (pySplit (pyLower x)).toFinset = ∅
  · rw [if_pos ⟨h, h⟩]
  · rw [if_neg (fun hc => h hc.1), if_neg (fun hc => hc.elim h h)]
    rw [Finset.inter_self, Finset.union_self, div_self]
    exact Nat.cast_ne_zero.mpr (fun hc => h (Finset.card_eq_zero.mp hc))

theorem sim_one_empty (a b : Text)
    (h : ((pySplit (pyLower a)).toFinset = ∅ ∧ (pySplit (pyLower b)).toFinset ≠ ∅) ∨
         ((pySplit (pyLower a)).toFinset ≠ ∅ ∧ (pySplit (pyLower b)).toFinset = ∅)) :
    calculate_text_similarity a b = 0 := by
  simp only [calculate_text_similarity]
  rcases h with ⟨h1, h2⟩ | ⟨h1, h2⟩
  · rw [if_neg (fun hc => h2 hc.2), if_pos (Or.inl h1)]
  · rw [if_neg (fun hc => h1 hc.1), if_pos (Or.inr h2)]

theorem sim_jaccard (a b : Text) (ha : (pySplit (pyLower a)).toFinset ≠ ∅)
    (hb : (pySplit (pyLower b)).toFinset ≠ ∅) :
    calculate_text_similarity a b =
      (((pySplit (pyLower a)).toFinset ∩ (pySplit (pyLower b)).toFinset).card : ℚ) /
        (((pySplit (pyLower a)).toFinset ∪ (pySplit (pyLower b)).toFinset).card : ℚ) := by
  simp only [calculate_text_similarity]
  rw [if_neg (fun hc => ha hc.1), if_neg (fun hc => hc.elim ha hb)]

/-- C2: `textSimilarity(x, x) = 1` for every non-empty `x`;
`textSimilarity("", "") = 1`; when exactly one input tokenizes to the
empty word set the result is 0 (e.g. `textSimilarity("a b", "") = 0`); and
in general it is the case-insensitive word-set Jaccard index, always in
`[0, 1]`. -/
theorem textSimilarity_spec :
    (∀ x : Text, x ≠ [] → calculate_text_similarity x x = 1) ∧
    calculate_text_similarity (str "") (str "") = 1 ∧
    calculate_text_similarity (str "a b") (str "") = 0 ∧
    (∀ a b : Text,
      ((pySplit (pyLower a)).toFinset = ∅ ∧ (pySplit (pyLower b)).toFinset ≠ ∅) ∨
      ((pySplit (pyLower a)).toFinset ≠ ∅ ∧ (pySplit (pyLower b)).toFinset = ∅) →
        calculate_text_similarity a b = 0) ∧
    (∀ a b : Text, (pySplit (pyLower a)).toFinset ≠ ∅ →
      (pySplit (pyLower b)).toFinset ≠ ∅ →
      calculate_text_similarity a b =
        (((pySplit (pyLower a)).toFinset ∩ (pySplit (pyLower b)).toFinset).card : ℚ) /
          (((pySplit (pyLower a)).toFinset ∪ (pySplit (pyLower b)).toFinset).card : ℚ)) ∧
    (∀ a b : Text, 0 ≤ calculate_text_similarity a b ∧ calculate_text_similarity a b ≤ 1) :=
  ⟨fun x _ => sim_self x, by decide, by decide, fun a b h => sim_one_empty a b h,
   fun a b ha hb => sim_jaccard a b ha hb, fun a b => sim_bounds a b⟩

theorem textSimilarity_spec_witness :
    calculate_text_similarity (str "hello world") (str "hello world") = 1 ∧
    calculate_text_similarity (str "a b") (str "") = 0 :=
  ⟨textSimilarity_spec.1 (str "hello world") (by decide), textSimilarity_spec.2.2.1⟩

theorem criterionScore_none (cr : String) (q a : Text) (c e : Option Text)
    (h : cr ∉ (["relevance", "accuracy", "coherence", "completeness"] : List String)) :
    Main.criterionScore cr q a c e = none := by
  have h1 : cr ≠ "relevance" := fun hh => h (by simp [hh])
  have h2 : cr ≠ "accuracy" := fun hh => h (by simp [hh])
  have h3 : cr ≠ "coherence" := fun hh => h (by simp [hh])
  have h4 : cr ≠ "completeness" := fun hh => h (by simp [hh])
  unfold Main.criterionScore
  rw [if_neg h1, if_neg h2, if_neg h3, if_neg h4]

theorem foldl_scores_unknown (crits : List String) (q a : Text) (c e : Option Text)
    (acc : List (String × ℚ))
    (h : ∀ cr ∈ crits, Main.criterionScore cr q a c e = none) :
    crits.foldl (fun acc criterion =>
      match Main.criterionScore criterion q a c e with
      | some v => Main.insertScore acc criterion v
      | none => acc) acc = acc := by
  induction crits generalizing acc with
  | nil => rfl
  | cons hd tl ih =>
    have hhd := h hd (List.mem_cons_self hd tl)
    simp only [List.foldl_cons, hhd]
    exact ih acc (fun cr hcr => h cr (List.mem_cons_of_mem hd hcr))

/-- C3: the aggregator on `evaluation_criteria = ["relevance", "bogus"]`
produces a `detailed_scores` dict holding exactly the `relevance` key with
`overall_score` equal to that single relevance score; in general unknown
names are skipped non-fatally, `overall_score` is the mean of exactly the
dimensions actually evaluated, and it is 0.0 when none is recognized. -/
theorem aggregator_spec :
    (∀ (q a : Text) (c e : Option Text),
      Main.detailed_scores ["relevance", "bogus"] q a c e =
        [("relevance", (RelevanceEvaluator.evaluate q a c e).1)] ∧
      Main.overall_score ["relevance", "bogus"] q a c e =
        (RelevanceEvaluator.evaluate q a c e).1) ∧
    (∀ (crits : List String) (q a : Text) (c e : Option Text),
      (∀ cr ∈ crits,
        cr ∉ (["relevance", "accuracy", "coherence", "completeness"] : List String)) →
      Main.detailed_scores crits q a c e = [] ∧ Main.overall_score crits q a c e = 0) ∧
    (∀ (crits : List String) (q a : Text) (c e : Option Text),
      Main.overall_score crits q a c e =
        if Main.detailed_scores crits q a c e = [] then 0
        else ((Main.detailed_scores crits q a c e).map (fun p => p.2)).sum /
          ((Main.detailed_scores crits q a c e).length : ℚ)) := by
  refine ⟨fun q a c e => ?_, fun crits q a c e h => ?_, fun crits q a c e => rfl⟩
  · have h1 : Main.detailed_scores ["relevance", "bogus"] q a c e =
        [("relevance", (RelevanceEvaluator.evaluate q a c e).1)] := rfl
    refine ⟨h1, ?_⟩
    simp [Main.overall_score, h1]
  · have hds : Main.detailed_scores crits q a c e = [] :=
      foldl_scores_unknown crits q a c e []
        (fun cr hcr => criterionScore_none cr q a c e (h cr hcr))
    refine ⟨hds, ?_⟩
    simp [Main.overall_score, hds]

theorem aggregator_spec_witness :
    Main.detailed_scores ["bogus"] (str "q") (str "a") none none = [] ∧
    Main.overall_score ["bogus"] (str "q") (str "a") none none = 0 :=
  aggregator_spec.2.1 ["bogus"] (str "q") (str "a") none none (by decide)

theorem cmp_none_none (a e : Text) (h1 : firstNumber a = none)
    (h2 : firstNumber e = none) :
    AccuracyEvaluator.compare_numerical_values a e = 0.8 := by
  unfold AccuracyEvaluator.compare_numerical_values
  rw [h1, h2]

theorem cmp_none_some (a e : Text) (h1 : firstNumber a = none)
    (h2 : firstNumber e ≠ none) :
    AccuracyEvaluator.compare_numerical_values a e = 0.3 := by
  obtain ⟨y, hy⟩ := Option.ne_none_iff_exists'.mp h2
  unfold AccuracyEvaluator.compare_numerical_values
  rw [h1, hy]

theorem cmp_some_none (a e : Text) (h1 : firstNumber a ≠ none)
    (h2 : firstNumber e = none) :
    AccuracyEvaluator.compare_numerical_values a e = 0.3 := by
  obtain ⟨x, hx⟩ := Option.ne_none_iff_exists'.mp h1
  unfold AccuracyEvaluator.compare_numerical_values
  rw [hx, h2]

theorem cmp_some_some_ne (a e : Text) (x y : ℚ) (h1 : firstNumber a = some x)
    (h2 : firstNumber e = some y) (hxy : x ≠ y) :
    AccuracyEvaluator.compare_numerical_values a e = max 0 (1 - |x - y| / max |y| 1) := by
  unfold AccuracyEvaluator.compare_numerical_values
  rw [h1, h2]
  exact if_neg hxy

theorem cmp_some_some_eq (a e : Text) (x : ℚ) (h1 : firstNumber a = some x)
    (h2 : firstNumber e = some x) :
    AccuracyEvaluator.compare_numerical_values a e = 1 := by
  unfold AccuracyEvaluator.compare_numerical_values
  rw [h1, h2]
  exact if_pos rfl

/-- C4: the numerical sub-score of the accuracy evaluator compares only the
first number extracted from each text: 0.8 when neither has a number, 0.3
when exactly one does, 1.0 when the first numbers are equal, and otherwise
`max(0, 1 - |a - e| / max(|e|, 1))`; in particular answer
"The result is 50." against expected "The result is 100." gives relative
error 0.5 and sub-score 0.5, while expected "The result is 50." gives 1.0.
(The defensive parse/zero-division fallback of the source is unreachable:
regex-extracted tokens always parse and the divisor is at least 1.) -/
theorem compare_numerical_spec :
    firstNumber (str "The result is 50.") = some 50 ∧
    firstNumber (str "The result is 100.") = some 100 ∧
    AccuracyEvaluator.compare_numerical_values (str "The result is 50.")
      (str "The result is 100.") = 1 / 2 ∧
    AccuracyEvaluator.compare_numerical_values (str "The result is 50.")
      (str "The result is 50.") = 1 ∧
    (∀ a e : Text, firstNumber a = none → firstNumber e = none →
      AccuracyEvaluator.compare_numerical_values a e = 0.8) ∧
    (∀ a e : Text, firstNumber a = none → firstNumber e ≠ none →
      AccuracyEvaluator.compare_numerical_values a e = 0.3) ∧
    (∀ a e : Text, firstNumber a ≠ none → firstNumber e = none →
      AccuracyEvaluator.compare_numerical_values a e = 0.3) ∧
    (∀ (a e : Text) (x y : ℚ), firstNumber a = some x → firstNumber e = some y →
      x ≠ y →
      AccuracyEvaluator.compare_numerical_values a e =
        max 0 (1 - |x - y| / max |y| 1)) ∧
    (∀ (a e : Text) (x : ℚ), firstNumber a = some x → firstNumber e = some x →
      AccuracyEvaluator.compare_numerical_values a e = 1) :=
  ⟨by decide, by decide,
   by
    rw [cmp_some_some_ne _ _ 50 100 (by decide) (by decide) (by norm_num)]
    norm_num,
   cmp_some_some_eq _ _ 50 (by decide) (by decide),
   cmp_none_none, cmp_none_some, cmp_some_none, cmp_some_some_ne, cmp_some_some_eq⟩

theorem compare_numerical_spec_witness :
    AccuracyEvaluator.compare_numerical_values (str "no digits") (str "none either") = 0.8 ∧
    AccuracyEvaluator.compare_numerical_values (str "seven is 7") (str "no digits") = 0.3 :=
  ⟨compare_numerical_spec.2.2.2.2.1 _ _ (by decide) (by decide),
   compare_numerical_spec.2.2.2.2.2.2.1 _ _ (by decide) (by decide)⟩

/-! ### C5 helpers: the nested counting loops as `countP` over pairs -/

theorem factual_inner_foldl (fact : Text) (ef : List Text) (acc : ℤ × ℤ) :
    ef.foldl (fun acc2 expected_fact =>
      let similarity := calculate_text_similarity fact expected_fact
      if similarity > 0.7 then (acc2.1 + 1, acc2.2)
      else if (decide (similarity > 0.3) &&
          AccuracyEvaluator.are_contradictory fact expected_fact) = true then
        (acc2.1, acc2.2 + 1)
      else acc2) acc =
    (acc.1 + (ef.countP (fun g => decide (calculate_text_similarity fact g > 0.7)) : ℤ),
     acc.2 + (ef.countP (fun g =>
       !(decide (calculate_text_similarity fact g > 0.7)) &&
       (decide (calculate_text_similarity fact g > 0.3) &&
        AccuracyEvaluator.are_contradictory fact g)) : ℤ)) := by
  induction ef generalizing acc with
  | nil => simp
  | cons g tl ih =>
    simp only [List.foldl_cons, List.countP_cons]
    rw [ih]
    by_cases h1 : calculate_text_similarity fact g > 0.7
    · rw [if_pos h1]
      have e1 : decide (calculate_text_similarity fact g > 0.7) = true := decide_eq_true h1
      simp only [e1, Bool.not_true, Bool.false_and, if_true, if_false]
      rw [Prod.mk.injEq]
      constructor <;> push_cast <;> ring
    · rw [if_neg h1]
      have e1 : decide (calculate_text_similarity fact g > 0.7) = false :=
        decide_eq_false h1
      by_cases h2 : (decide (calculate_text_similarity fact g > 0.3) &&
          AccuracyEvaluator.are_contradictory fact g) = true
      · rw [if_pos h2]
        simp only [e1, h2, Bool.not_false, Bool.true_and, if_true, if_false]
        rw [Prod.mk.injEq]
        constructor <;> push_cast <;> ring
      · rw [if_neg h2]
        have e2 : (decide (calculate_text_similarity fact g > 0.3) &&
            AccuracyEvaluator.are_contradictory fact g) = false :=
          Bool.not_eq_true _ ▸ Bool.of_not_eq_true h2
        simp only [e1, e2, Bool.not_false, Bool.true_and, if_false]
        rw [Prod.mk.injEq]
        constructor <;> push_cast <;> ring

theorem factual_outer_foldl (af ef : List Text) (acc0 : ℤ × ℤ) :
    af.foldl (fun acc fact =>
      ef.foldl (fun acc2 expected_fact =>
        let similarity := calculate_text_similarity fact expected_fact
        if similarity > 0.7 then (acc2.1 + 1, acc2.2)
        else if (decide (similarity > 0.3) &&
            AccuracyEvaluator.are_contradictory fact expected_fact) = true then
          (acc2.1, acc2.2 + 1)
        else acc2) acc) acc0 =
    (acc0.1 + ((af ×ˢ ef).countP
        (fun p => decide (calculate_text_similarity p.1 p.2 > 0.7)) : ℤ),
     acc0.2 + ((af ×ˢ ef).countP (fun p =>
       !(decide (calculate_text_similarity p.1 p.2 > 0.7)) &&
       (decide (calculate_text_similarity p.1 p.2 > 0.3) &&
        AccuracyEvaluator.are_contradictory p.1 p.2)) : ℤ)) := by
  induction af generalizing acc0 with
  | nil => simp
  | cons fact tl ih =>
    simp only [List.foldl_cons]
    rw [factual_inner_foldl, ih]
    simp only [List.product_cons, List.countP_append, List.countP_map]
    have hc1 : ((fun p : Text × Text =>
        decide (calculate_text_similarity p.1 p.2 > 0.7)) ∘ fun b => (fact, b)) =
        (fun g => decide (calculate_text_similarity fact g > 0.7)) := rfl
    have hc2 : ((fun p : Text × Text =>
        !(decide (calculate_text_similarity p.1 p.2 > 0.7)) &&
        (decide (calculate_text_similarity p.1 p.2 > 0.3) &&
         AccuracyEvaluator.are_contradictory p.1 p.2)) ∘ fun b => (fact, b)) =
        (fun g => !(decide (calculate_text_similarity fact g > 0.7)) &&
          (decide (calculate_text_similarity fact g > 0.3) &&
           AccuracyEvaluator.are_contradictory fact g)) := rfl
    rw [hc1, hc2, Prod.mk.injEq]
    constructor <;> push_cast <;> ring

theorem are_contradictory_symm (f g : Text) :
    AccuracyEvaluator.are_contradictory f g = AccuracyEvaluator.are_contradictory g f := by
  simp only [AccuracyEvaluator.are_contradictory, AccuracyEvaluator.contradictory_pairs,
    List.any_cons, List.any_nil, Bool.or_false]
  ac_rfl

/-- C5: when an expected answer is present, the accuracy evaluator's
factual-consistency score extracts as key facts the sentences containing
is/are/was/were/has/have/contains/includes (substring tests on the
lowercased sentence), counts one match per (answer fact, expected fact)
pair with similarity above 0.7 and one contradiction per pair with
similarity in (0.3, 0.7] flagged by the symmetric antonym table, and
returns (matches - contradictions) / |expected facts| clamped to [0, 1],
with neutral 0.5 when there are no expected facts. -/
theorem factual_consistency_spec :
    (∀ t : Text, AccuracyEvaluator.extract_key_facts t =
      (split_into_sentences t).filter (fun s =>
        AccuracyEvaluator.fact_markers.any (fun p => containsSub p (pyLower s)))) ∧
    (∀ f g : Text, AccuracyEvaluator.are_contradictory f g =
      AccuracyEvaluator.are_contradictory g f) ∧
    (∀ a e : Text, AccuracyEvaluator.extract_key_facts e = [] →
      AccuracyEvaluator.check_factual_consistency a e = 0.5) ∧
    (∀ a e : Text, AccuracyEvaluator.extract_key_facts e ≠ [] →
      AccuracyEvaluator.check_factual_consistency a e =
        clamp01
          (((((AccuracyEvaluator.extract_key_facts a ×ˢ
                AccuracyEvaluator.extract_key_facts e).countP
              (fun p => decide (calculate_text_similarity p.1 p.2 > 0.7)) : ℤ) -
            ((AccuracyEvaluator.extract_key_facts a ×ˢ
                AccuracyEvaluator.extract_key_facts e).countP (fun p =>
              !(decide (calculate_text_similarity p.1 p.2 > 0.7)) &&
              (decide (calculate_text_similarity p.1 p.2 > 0.3) &&
               AccuracyEvaluator.are_contradictory p.1 p.2)) : ℤ) : ℚ)) /
            ((AccuracyEvaluator.extract_key_facts e).length : ℚ))) := by
  refine ⟨fun t => rfl, are_contradictory_symm, fun a e h => ?_, fun a e h => ?_⟩
  · simp only [AccuracyEvaluator.check_factual_consistency]
    rw [if_pos h]
  · simp only [AccuracyEvaluator.check_factual_consistency]
    rw [if_neg h, factual_outer_foldl]
    norm_num

theorem factual_consistency_spec_witness :
    AccuracyEvaluator.check_factual_consistency (str "cats sleep") (str "birds fly") = 0.5 ∧
    AccuracyEvaluator.check_factual_consistency (str "it is good") (str "it is good") = 1 := by
  constructor
  · exact factual_consistency_spec.2.2.1 _ _ (by decide)
  · rw [factual_consistency_spec.2.2.2 _ _ (by decide)]
    have he : AccuracyEvaluator.extract_key_facts (str "it is good") =
        [str "it is good"] := by decide
    have hsim : calculate_text_similarity (str "it is good") (str "it is good") = 1 :=
      sim_self _
    rw [he]
    simp only [List.product_cons, List.nil_product, List.map_cons, List.map_nil,
      List.append_nil, List.countP_cons, List.countP_nil, List.length_cons,
      List.length_nil, hsim]
    norm_num [clamp01]

/-- C6 counterexample: on a single sentence of exactly five words the
structure sub-score is 0.4, not 0.7 — five words do not exceed the
five-word threshold `len(answer.split()) > 5`. -/
theorem coherence_five_word_counterexample :
    (split_into_sentences (str "This is five words long.")).length = 1 ∧
    count_words (str "This is five words long.") = 5 ∧
    CoherenceEvaluator.evaluate_structure (str "This is five words long.") = 0.4 ∧
    CoherenceEvaluator.evaluate_structure (str "This is five words long.") ≠ 0.7 ∧
    CoherenceEvaluator.evaluate_logical_flow (str "This is five words long.") = 0.8 := by
  have h1 : (split_into_sentences (str "This is five words long.")).length = 1 := by decide
  have h0 : ¬ (split_into_sentences (str "This is five words long.")).length = 0 := by decide
  have h5 : ¬ count_words (str "This is five words long.") > 5 := by decide
  have hcw : count_words (str "This is five words long.") = 5 := by decide
  have hs : CoherenceEvaluator.evaluate_structure (str "This is five words long.") = 0.4 := by
    simp only [CoherenceEvaluator.evaluate_structure]
    rw [if_neg h0, if_pos h1, if_neg h5]
  have hf : CoherenceEvaluator.evaluate_logical_flow (str "This is five words long.") = 0.8 := by
    simp only [CoherenceEvaluator.evaluate_logical_flow]
    rw [if_pos (by omega : (split_into_sentences (str "This is five words long.")).length ≤ 1)]
  refine ⟨h1, hcw, hs, fun hc => ?_, hf⟩
  rw [hs] at hc
  norm_num at hc

/-- C6 amended: on a single-sentence answer of exactly five
whitespace-separated words the structure sub-score is 0.4 (0.7 would
require more than five words) and the flow sub-score is 0.8 (the
single-sentence shortcut). -/
theorem coherence_single_five_word_scores (a : Text)
    (h1 : (split_into_sentences a).length = 1) (h5 : count_words a = 5) :
    CoherenceEvaluator.evaluate_structure a = 0.4 ∧
    CoherenceEvaluator.evaluate_logical_flow a = 0.8 := by
  constructor
  · simp only [CoherenceEvaluator.evaluate_structure]
    rw [if_neg (by omega), if_pos h1, if_neg (by omega)]
  · simp only [CoherenceEvaluator.evaluate_logical_flow]
    rw [if_pos (by omega)]

theorem coherence_single_five_word_scores_witness :
    CoherenceEvaluator.evaluate_structure (str "One two three four five.") = 0.4 ∧
    CoherenceEvaluator.evaluate_logical_flow (str "One two three four five.") = 0.8 :=
  coherence_single_five_word_scores _ (by decide) (by decide)

/-! ### C7 helpers: lowercasing kills the proper-noun pattern -/

theorem char_toNat_ofNat_valid (n : Nat) (h : n.isValidChar) :
    (Char.ofNat n).toNat = n := by
  simp [Char.ofNat, h, Char.ofNatAux, Char.toNat, UInt32.toNat, BitVec.toNat_ofNatLt]

theorem char_toLower_toNat (c : Char) :
    (Char.toLower c).toNat =
      if c.toNat ≥ 65 ∧ c.toNat ≤ 90 then c.toNat + 32 else c.toNat := by
  simp only [Char.toLower]
  by_cases h : c.toNat ≥ 65 ∧ c.toNat ≤ 90
  · rw [if_pos h, if_pos h]
    exact char_toNat_ofNat_valid _ (Or.inl (by omega))
  · rw [if_neg h, if_neg h]

theorem isUpperChar_toLower (c : Char) : isUpperChar (Char.toLower c) = false := by
  cases hb : isUpperChar (Char.toLower c)
  · rfl
  · exfalso
    unfold isUpperChar at hb
    rw [Bool.and_eq_true, decide_eq_true_eq, decide_eq_true_eq] at hb
    have h1 : 65 ≤ (Char.toLower c).toNat := hb.1
    have h2 : (Char.toLower c).toNat ≤ 90 := hb.2
    have e := char_toLower_toNat c
    split at e <;> omega

theorem searchPos_capBigram_false (l : Text) (prev : Option Char)
    (h : ∀ c ∈ l, isUpperChar c = false) :
    searchPos capBigramAt prev l = false := by
  induction l generalizing prev with
  | nil => simp [searchPos, capBigramAt, capWordAt]
  | cons c rest ih =>
    have hc := h c (List.mem_cons_self c rest)
    simp only [searchPos, capBigramAt, capWordAt, hc, Bool.false_eq_true, if_false,
      Bool.and_false, Bool.false_or]
    exact ih (some c) (fun x hx => h x (List.mem_cons_of_mem c hx))

theorem searchCapBigram_pyLower (t : Text) : searchCapBigram (pyLower t) = false := by
  unfold searchCapBigram
  apply searchPos_capBigram_false
  intro c hc
  rw [pyLower] at hc
  obtain ⟨d, _, rfl⟩ := List.mem_map.mp hc
  exact isUpperChar_toLower d

theorem specificity_john_smith :
    AccuracyEvaluator.measure_specificity (str "John Smith") = 0.5 := by
  have h1 : searchQuantity (pyLower (str "John Smith")) = false := by decide
  have h2 : searchAnyWB [str "exactly", str "precisely", str "specifically",
      str "particularly"] (pyLower (str "John Smith")) = false := by decide
  have h3 : searchYear (pyLower (str "John Smith")) = false := by decide
  have h4 : searchCapBigram (pyLower (str "John Smith")) = false := by decide
  have h5 : searchAnyWB [str "some", str "many", str "few", str "several",
      str "various", str "different", str "often", str "sometimes", str "usually"]
      (pyLower (str "John Smith")) = false := by decide
  have h6 : searchAnyWB [str "approximately", str "roughly", str "about",
      str "around", str "nearly"] (pyLower (str "John Smith")) = false := by decide
  have h7 : searchAnyWB [str "might", str "could", str "may", str "possibly",
      str "probably", str "likely"] (pyLower (str "John Smith")) = false := by decide
  simp only [AccuracyEvaluator.measure_specificity, h1, h2, h3, h4, h5, h6, h7,
    Bool.false_eq_true, if_false]
  norm_num [clamp01]

/-- C7: (code bug in `_measure_specificity`) the claimed capitalized-bigram
indicator can never raise the score: the text is lowercased before the
`[A-Z]`-based proper-noun pattern is searched, so it never matches any
lowered text, and "John Smith" — a capitalized bigram with no other
indicator — scores exactly the 0.5 base instead of exceeding it. -/
theorem specificity_cap_bigram_dead :
    AccuracyEvaluator.measure_specificity (str "John Smith") = 0.5 ∧
    (∀ t : Text, searchCapBigram (pyLower t) = false) :=
  ⟨specificity_john_smith, searchCapBigram_pyLower⟩

/-! ### C8 helpers: splitting around an appended keyword -/

theorem splitChunksAux_sep_append (sep : Char → Bool) (m : Char) (hm : sep m = true)
    (u v : Text) : ∀ cur : Text,
    splitChunksAux sep (u ++ m :: v) cur =
      splitChunksAux sep (u ++ [m]) cur ++ splitChunksAux sep v [] := by
  induction u with
  | nil =>
    intro cur
    by_cases hcur : cur = [] <;> simp [splitChunksAux, hm, hcur]
  | cons c u' ih =>
    intro cur
    by_cases hc : sep c = true <;> by_cases hcur : cur = [] <;>
      simp [splitChunksAux, hc, hcur, ih]

theorem splitChunksAux_append_sep (sep : Char → Bool) (m : Char) (hm : sep m = true)
    (u : Text) : ∀ cur : Text,
    splitChunksAux sep (u ++ [m]) cur = splitChunksAux sep u cur := by
  induction u with
  | nil =>
    intro cur
    by_cases hcur : cur = [] <;> simp [splitChunksAux, hm, hcur]
  | cons c u' ih =>
    intro cur
    by_cases hc : sep c = true <;> by_cases hcur : cur = [] <;>
      simp [splitChunksAux, hc, hcur, ih]

theorem splitChunksAux_no_sep (sep : Char → Bool) (w : Text)
    (hw : ∀ c ∈ w, sep c = false) : ∀ cur : Text, ¬(w = [] ∧ cur = []) →
    splitChunksAux sep w cur = [cur.reverse ++ w] := by
  induction w with
  | nil =>
    intro cur hne
    have hcur : cur ≠ [] := fun h => hne ⟨rfl, h⟩
    simp [splitChunksAux, hcur]
  | cons c w' ih =>
    intro cur _
    have hc : sep c = false := hw c (List.mem_cons_self _ _)
    simp only [splitChunksAux, hc, Bool.false_eq_true, if_false]
    rw [ih (fun x hx => hw x (List.mem_cons_of_mem c hx)) (c :: cur) (by simp)]
    simp

theorem splitChunksAux_mem_chars (sep : Char → Bool) (t : Text) :
    ∀ (cur w : Text), w ∈ splitChunksAux sep t cur → ∀ c ∈ w,
      (c ∈ t ∧ sep c = false) ∨ c ∈ cur := by
  induction t with
  | nil =>
    intro cur w hw c hc
    simp only [splitChunksAux] at hw
    split at hw
    · simp at hw
    · simp only [List.mem_singleton] at hw
      subst hw
      exact Or.inr (List.mem_reverse.mp hc)
  | cons d t' ih =>
    intro cur w hw c hc
    simp only [splitChunksAux] at hw
    split at hw
    · split at hw
      · rcases ih [] w hw c hc with ⟨h1, h2⟩ | h3
        · exact Or.inl ⟨List.mem_cons_of_mem d h1, h2⟩
        · simp at h3
      · rcases List.mem_cons.mp hw with hw1 | hw2
        · subst hw1
          exact Or.inr (List.mem_reverse.mp hc)
        · rcases ih [] w hw2 c hc with ⟨h1, h2⟩ | h3
          · exact Or.inl ⟨List.mem_cons_of_mem d h1, h2⟩
          · simp at h3
    · next hd =>
      rcases ih (d :: cur) w hw c hc with ⟨h1, h2⟩ | h3
      · exact Or.inl ⟨List.mem_cons_of_mem d h1, h2⟩
      · rcases List.mem_cons.mp h3 with rfl | h4
        · exact Or.inl ⟨List.mem_cons_self _ _, Bool.of_not_eq_true hd⟩
        · exact Or.inr h4

theorem map_fix {α : Type} (f : α → α) (l : List α) (h : ∀ c ∈ l, f c = c) :
    l.map f = l := by
  induction l with
  | nil => rfl
  | cons c l' ih =>
    rw [List.map_cons, h c (List.mem_cons_self _ _),
      ih (fun x hx => h x (List.mem_cons_of_mem c hx))]

theorem toLower_toLower (c : Char) :
    Char.toLower (Char.toLower c) = Char.toLower c := by
  have e := char_toLower_toNat c
  have h : ¬ ((Char.toLower c).toNat ≥ 65 ∧ (Char.toLower c).toNat ≤ 90) := by
    split at e <;> omega
  show (if (Char.toLower c).toNat ≥ 65 ∧ (Char.toLower c).toNat ≤ 90
        then Char.ofNat ((Char.toLower c).toNat + 32) else Char.toLower c) =
    Char.toLower c
  rw [if_neg h]

theorem cleanChar_not_space (x : Char)
    (h : isSpaceChar (RelevanceEvaluator.cleanChar x) = false) :
    RelevanceEvaluator.cleanChar x = x ∧ isWordChar x = true := by
  unfold RelevanceEvaluator.cleanChar at h ⊢
  split at h
  · next hcase =>
    rw [if_pos hcase]
    refine ⟨rfl, ?_⟩
    rw [Bool.or_eq_true] at hcase
    rcases hcase with hw | hs
    · exact hw
    · exact absurd hs (by rw [h]; exact Bool.false_ne_true)
  · exact absurd h (by decide)

theorem key_term_chars (q w : Text)
    (hw : w ∈ pySplit (RelevanceEvaluator.clean (pyLower q))) :
    ∀ c ∈ w, isWordChar c = true ∧ Char.toLower c = c ∧ isSpaceChar c = false := by
  intro c hc
  have hmem := splitChunksAux_mem_chars isSpaceChar _ [] w hw c hc
  rcases hmem with ⟨h1, h2⟩ | h3
  · rw [RelevanceEvaluator.clean] at h1
    obtain ⟨x, hx, rfl⟩ := List.mem_map.mp h1
    obtain ⟨hfix, hword⟩ := cleanChar_not_space x h2
    rw [hfix] at h2 ⊢
    refine ⟨hword, ?_, h2⟩
    rw [pyLower] at hx
    obtain ⟨d, _, rfl⟩ := List.mem_map.mp hx
    exact toLower_toLower d
  · simp at h3

theorem pySplit_append_word (U w : Text) (hw : ∀ c ∈ w, isSpaceChar c = false)
    (hne : w ≠ []) :
    pySplit (U ++ ' ' :: w) = pySplit U ++ [w] := by
  unfold pySplit splitChunks
  rw [splitChunksAux_sep_append isSpaceChar ' ' (by decide) U w []]
  rw [splitChunksAux_append_sep isSpaceChar ' ' (by decide) U []]
  rw [splitChunksAux_no_sep isSpaceChar w hw [] (by simp [hne])]
  simp

theorem extract_key_terms_append_keyword (q a w : Text)
    (hw : w ∈ RelevanceEvaluator.extract_key_terms q) :
    RelevanceEvaluator.extract_key_terms (a ++ ' ' :: w) =
      RelevanceEvaluator.extract_key_terms a ∪ {w} := by
  unfold RelevanceEvaluator.extract_key_terms at hw ⊢
  rw [List.mem_toFinset, List.mem_filter] at hw
  obtain ⟨hwmem, hwpred⟩ := hw
  have hchars := key_term_chars q w hwmem
  have hlow : List.map Char.toLower w = w :=
    map_fix _ _ (fun c hc => (hchars c hc).2.1)
  have hclean : List.map RelevanceEvaluator.cleanChar w = w := by
    apply map_fix
    intro c hc
    unfold RelevanceEvaluator.cleanChar
    rw [if_pos (by rw [(hchars c hc).1]; rfl)]
  have hnospace : ∀ c ∈ w, isSpaceChar c = false := fun c hc => (hchars c hc).2.2
  have hne : w ≠ [] := by
    intro h
    rw [h] at hwpred
    simp at hwpred
  have h1 : pyLower (a ++ ' ' :: w) = pyLower a ++ ' ' :: w := by
    unfold pyLower
    rw [List.map_append, List.map_cons, hlow]
    rfl
  have h2 : RelevanceEvaluator.clean (pyLower a ++ ' ' :: w) =
      RelevanceEvaluator.clean (pyLower a) ++ ' ' :: w := by
    unfold RelevanceEvaluator.clean
    rw [List.map_append, List.map_cons, hclean]
    rfl
  rw [h1, h2, pySplit_append_word _ w hnospace hne, List.filter_append,
    List.toFinset_append]
  have hwpred2 : 2 < w.length ∧ w ∉ RelevanceEvaluator.stop_words := by
    simpa using hwpred
  simp [List.filter_singleton, hwpred2.1, hwpred2.2]

theorem term_overlap_union_keyword (Q A : Finset Text) (w : Text) (hw : w ∈ Q) :
    RelevanceEvaluator.calculate_term_overlap Q A ≤
      RelevanceEvaluator.calculate_term_overlap Q (A ∪ {w}) := by
  unfold RelevanceEvaluator.calculate_term_overlap
  have hQ : Q ≠ ∅ := fun h => by simp [h] at hw
  rw [if_neg hQ, if_neg hQ]
  have hQpos : 0 < (Q.card : ℚ) := by
    exact_mod_cast Finset.card_pos.mpr (Finset.nonempty_iff_ne_empty.mpr hQ)
  have hsub : (Q ∩ A).card ≤ (Q ∩ (A ∪ {w})).card :=
    Finset.card_le_card (Finset.inter_subset_inter le_rfl Finset.subset_union_left)
  exact (div_le_div_iff_of_pos_right hQpos).mpr (by exact_mod_cast hsub)

/-- C8: appending to the answer (with a whitespace separator) a keyword
that is among the query's extracted key terms never decreases the
relevance evaluator's term-overlap sub-score: the answer's key-term set
only grows by that keyword. -/
theorem term_overlap_monotone (q a w : Text)
    (hw : w ∈ RelevanceEvaluator.extract_key_terms q) :
    RelevanceEvaluator.calculate_term_overlap (RelevanceEvaluator.extract_key_terms q)
        (RelevanceEvaluator.extract_key_terms a) ≤
      RelevanceEvaluator.calculate_term_overlap (RelevanceEvaluator.extract_key_terms q)
        (RelevanceEvaluator.extract_key_terms (a ++ ' ' :: w)) := by
  rw [extract_key_terms_append_keyword q a w hw]
  exact term_overlap_union_keyword _ _ w hw

theorem term_overlap_monotone_witness :
    RelevanceEvaluator.calculate_term_overlap
        (RelevanceEvaluator.extract_key_terms (str "what is gravity"))
        (RelevanceEvaluator.extract_key_terms (str "it bends light")) ≤
      RelevanceEvaluator.calculate_term_overlap
        (RelevanceEvaluator.extract_key_terms (str "what is gravity"))
        (RelevanceEvaluator.extract_key_terms (str "it bends light" ++ ' ' :: str "gravity")) :=
  term_overlap_monotone (str "what is gravity") (str "it bends light") (str "gravity")
    (by decide)

/-- C9: every scorer's `evaluate` is deterministic — two calls with equal
`(query, answer, context, expected_answer)` give equal scores and equal
details.  Each evaluator is a pure function of its four inputs, with no
randomness, clock, or state carried over from earlier evaluations. -/
theorem evaluate_deterministic (q1 q2 a1 a2 : Text) (c1 c2 e1 e2 : Option Text)
    (hq : q1 = q2) (ha : a1 = a2) (hc : c1 = c2) (he : e1 = e2) :
    RelevanceEvaluator.evaluate q1 a1 c1 e1 = RelevanceEvaluator.evaluate q2 a2 c2 e2 ∧
    AccuracyEvaluator.evaluate q1 a1 c1 e1 = AccuracyEvaluator.evaluate q2 a2 c2 e2 ∧
    CoherenceEvaluator.evaluate q1 a1 c1 e1 = CoherenceEvaluator.evaluate q2 a2 c2 e2 ∧
    CompletenessEvaluator.evaluate q1 a1 c1 e1 =
      CompletenessEvaluator.evaluate q2 a2 c2 e2 := by
  subst hq ha hc he
  exact ⟨rfl, rfl, rfl, rfl⟩

theorem evaluate_deterministic_witness :
    RelevanceEvaluator.evaluate (str "q") (str "a") none none =
      RelevanceEvaluator.evaluate (str "q") (str "a") none none ∧
    AccuracyEvaluator.evaluate (str "q") (str "a") none none =
      AccuracyEvaluator.evaluate (str "q") (str "a") none none ∧
    CoherenceEvaluator.evaluate (str "q") (str "a") none none =
      CoherenceEvaluator.evaluate (str "q") (str "a") none none ∧
    CompletenessEvaluator.evaluate (str "q") (str "a") none none =
      CompletenessEvaluator.evaluate (str "q") (str "a") none none :=
  evaluate_deterministic _ _ _ _ _ _ _ _ rfl rfl rfl rfl

theorem gen_accuracy_analysis_ne (a : Text) (s : ℚ) :
    AccuracyEvaluator.generate_accuracy_analysis a s true ≠
      AccuracyEvaluator.generate_accuracy_analysis a s false := by
  simp only [AccuracyEvaluator.generate_accuracy_analysis]
  rw [if_pos trivial, if_neg (by decide : ¬ ((false : Bool) = true))]
  split_ifs <;> decide

/-- C10 counterexample: with an empty-string expected answer the accuracy
evaluator's details differ from the `None` call in more than the
`has_expected_answer` flag — the `analysis` string's parenthetical suffix
also differs, so the claimed "equal except the flag" fails. -/
theorem accuracy_empty_expected_counterexample :
    (AccuracyEvaluator.evaluate (str "q") (str "a") none (some (str ""))).1 =
      (AccuracyEvaluator.evaluate (str "q") (str "a") none none).1 ∧
    (AccuracyEvaluator.evaluate (str "q") (str "a") none (some (str ""))).2.analysis ≠
      (AccuracyEvaluator.evaluate (str "q") (str "a") none none).2.analysis :=
  ⟨rfl, gen_accuracy_analysis_ne (str "a")
    ((AccuracyEvaluator.evaluate (str "q") (str "a") none none).1)⟩

/-- C10 amended: an empty-string expected answer takes the same truthiness
branch as an absent one, so for the accuracy and completeness evaluators
all scores and details agree with the `None` call — except the accuracy
evaluator's `has_expected_answer` flag (True for the empty string) and its
`analysis` string, whose parenthetical suffix reflects that flag. -/
theorem empty_expected_like_none (q a : Text) (c : Option Text) :
    (AccuracyEvaluator.evaluate q a c (some [])).1 =
      (AccuracyEvaluator.evaluate q a c none).1 ∧
    (AccuracyEvaluator.evaluate q a c (some [])).2.similarity_score =
      (AccuracyEvaluator.evaluate q a c none).2.similarity_score ∧
    (AccuracyEvaluator.evaluate q a c (some [])).2.factual_consistency_score =
      (AccuracyEvaluator.evaluate q a c none).2.factual_consistency_score ∧
    (AccuracyEvaluator.evaluate q a c (some [])).2.precision_score =
      (AccuracyEvaluator.evaluate q a c none).2.precision_score ∧
    (AccuracyEvaluator.evaluate q a c (some [])).2.uncertainty_score =
      (AccuracyEvaluator.evaluate q a c none).2.uncertainty_score ∧
    (AccuracyEvaluator.evaluate q a c (some [])).2.accuracy_indicators =
      (AccuracyEvaluator.evaluate q a c none).2.accuracy_indicators ∧
    (AccuracyEvaluator.evaluate q a c (some [])).2.has_expected_answer = true ∧
    (AccuracyEvaluator.evaluate q a c none).2.has_expected_answer = false ∧
    (AccuracyEvaluator.evaluate q a c (some [])).2.analysis =
      AccuracyEvaluator.generate_accuracy_analysis a
        ((AccuracyEvaluator.evaluate q a c none).1) true ∧
    (AccuracyEvaluator.evaluate q a c none).2.analysis =
      AccuracyEvaluator.generate_accuracy_analysis a
        ((AccuracyEvaluator.evaluate q a c none).1) false ∧
    (AccuracyEvaluator.evaluate q a c (some [])).2.analysis ≠
      (AccuracyEvaluator.evaluate q a c none).2.analysis ∧
    CompletenessEvaluator.evaluate q a c (some []) =
      CompletenessEvaluator.evaluate q a c none :=
  ⟨rfl, rfl, rfl, rfl, rfl, rfl, rfl, rfl, rfl, rfl,
   gen_accuracy_analysis_ne a _, rfl⟩
